import Mathlib

/-!
Shallow embedding of the utflite UTF-8 library (src/utflite.c) and proofs
about its byte codec, width classification, grapheme-boundary engine and
navigation layer.

Modelling conventions:
* A byte buffer is a `List Nat` (entries are the bytes of the C buffer);
  the C `(pointer, length)` pair passed to `utflite_decode` is modelled by
  the list of readable bytes itself, and a sub-buffer `(text + offset,
  length - offset)` by `region text length offset`.
* C `int` offsets that are compared against `<= 0` (in `utflite_prev_char`
  and `utflite_prev_grapheme`) are modelled as `Int`; offsets that the C
  code only ever uses non-negatively are modelled as `Nat`.
* Widths are `Int` (the C functions return `-1` for control characters).
* C loops are modelled by structurally recursive functions with an explicit
  fuel argument chosen at the call site to dominate the loop's iteration
  count; adequacy of the fuel is established by the progress lemmas below.
-/

set_option maxRecDepth 10000

namespace Utflite

/-- Grapheme cluster break property values, from `enum gcb_property` in utflite.c. -/
inductive GcbProp where
  | other
  | cr
  | lf
  | control
  | extend
  | zwj
  | regionalIndicator
  | prepend
  | spacingMark
  | l
  | v
  | t
  | lv
  | lvt
deriving DecidableEq

/-- Zero-width character ranges (Unicode 17.0), from `ZERO_WIDTH_RANGES` in utflite.c. -/
def ZERO_WIDTH_RANGES : List (Nat × Nat) := [
  (0x0300, 0x036F), (0x0483, 0x0489), (0x0591, 0x05BD), (0x05BF, 0x05BF),
  (0x05C1, 0x05C2), (0x05C4, 0x05C5), (0x05C7, 0x05C7), (0x0600, 0x0605),
  (0x0610, 0x061A), (0x061C, 0x061C), (0x064B, 0x065F), (0x0670, 0x0670),
  (0x06D6, 0x06DD), (0x06DF, 0x06E4), (0x06E7, 0x06E8), (0x06EA, 0x06ED),
  (0x070F, 0x070F), (0x0711, 0x0711), (0x0730, 0x074A), (0x07A6, 0x07B0),
  (0x07EB, 0x07F3), (0x07FD, 0x07FD), (0x0816, 0x0819), (0x081B, 0x0823),
  (0x0825, 0x0827), (0x0829, 0x082D), (0x0859, 0x085B), (0x0890, 0x0891),
  (0x0897, 0x089F), (0x08CA, 0x0902), (0x093A, 0x093A), (0x093C, 0x093C),
  (0x0941, 0x0948), (0x094D, 0x094D), (0x0951, 0x0957), (0x0962, 0x0963),
  (0x0981, 0x0981), (0x09BC, 0x09BC), (0x09C1, 0x09C4), (0x09CD, 0x09CD),
  (0x09E2, 0x09E3), (0x09FE, 0x09FE), (0x0A01, 0x0A02), (0x0A3C, 0x0A3C),
  (0x0A41, 0x0A42), (0x0A47, 0x0A48), (0x0A4B, 0x0A4D), (0x0A51, 0x0A51),
  (0x0A70, 0x0A71), (0x0A75, 0x0A75), (0x0A81, 0x0A82), (0x0ABC, 0x0ABC),
  (0x0AC1, 0x0AC5), (0x0AC7, 0x0AC8), (0x0ACD, 0x0ACD), (0x0AE2, 0x0AE3),
  (0x0AFA, 0x0AFF), (0x0B01, 0x0B01), (0x0B3C, 0x0B3C), (0x0B3F, 0x0B3F),
  (0x0B41, 0x0B44), (0x0B4D, 0x0B4D), (0x0B55, 0x0B56), (0x0B62, 0x0B63),
  (0x0B82, 0x0B82), (0x0BC0, 0x0BC0), (0x0BCD, 0x0BCD), (0x0C00, 0x0C00),
  (0x0C04, 0x0C04), (0x0C3C, 0x0C3C), (0x0C3E, 0x0C40), (0x0C46, 0x0C48),
  (0x0C4A, 0x0C4D), (0x0C55, 0x0C56), (0x0C62, 0x0C63), (0x0C81, 0x0C81),
  (0x0CBC, 0x0CBC), (0x0CBF, 0x0CBF), (0x0CC6, 0x0CC6), (0x0CCC, 0x0CCD),
  (0x0CE2, 0x0CE3), (0x0D00, 0x0D01), (0x0D3B, 0x0D3C), (0x0D41, 0x0D44),
  (0x0D4D, 0x0D4D), (0x0D62, 0x0D63), (0x0D81, 0x0D81), (0x0DCA, 0x0DCA),
  (0x0DD2, 0x0DD4), (0x0DD6, 0x0DD6), (0x0E31, 0x0E31), (0x0E34, 0x0E3A),
  (0x0E47, 0x0E4E), (0x0EB1, 0x0EB1), (0x0EB4, 0x0EBC), (0x0EC8, 0x0ECE),
  (0x0F18, 0x0F19), (0x0F35, 0x0F35), (0x0F37, 0x0F37), (0x0F39, 0x0F39),
  (0x0F71, 0x0F7E), (0x0F80, 0x0F84), (0x0F86, 0x0F87), (0x0F8D, 0x0F97),
  (0x0F99, 0x0FBC), (0x0FC6, 0x0FC6), (0x102D, 0x1030), (0x1032, 0x1037),
  (0x1039, 0x103A), (0x103D, 0x103E), (0x1058, 0x1059), (0x105E, 0x1060),
  (0x1071, 0x1074), (0x1082, 0x1082), (0x1085, 0x1086), (0x108D, 0x108D),
  (0x109D, 0x109D), (0x135D, 0x135F), (0x1712, 0x1714), (0x1732, 0x1733),
  (0x1752, 0x1753), (0x1772, 0x1773), (0x17B4, 0x17B5), (0x17B7, 0x17BD),
  (0x17C6, 0x17C6), (0x17C9, 0x17D3), (0x17DD, 0x17DD), (0x180B, 0x180F),
  (0x1885, 0x1886), (0x18A9, 0x18A9), (0x1920, 0x1922), (0x1927, 0x1928),
  (0x1932, 0x1932), (0x1939, 0x193B), (0x1A17, 0x1A18), (0x1A1B, 0x1A1B),
  (0x1A56, 0x1A56), (0x1A58, 0x1A5E), (0x1A60, 0x1A60), (0x1A62, 0x1A62),
  (0x1A65, 0x1A6C), (0x1A73, 0x1A7C), (0x1A7F, 0x1A7F), (0x1AB0, 0x1ADD),
  (0x1AE0, 0x1AEB), (0x1B00, 0x1B03), (0x1B34, 0x1B34), (0x1B36, 0x1B3A),
  (0x1B3C, 0x1B3C), (0x1B42, 0x1B42), (0x1B6B, 0x1B73), (0x1B80, 0x1B81),
  (0x1BA2, 0x1BA5), (0x1BA8, 0x1BA9), (0x1BAB, 0x1BAD), (0x1BE6, 0x1BE6),
  (0x1BE8, 0x1BE9), (0x1BED, 0x1BED), (0x1BEF, 0x1BF1), (0x1C2C, 0x1C33),
  (0x1C36, 0x1C37), (0x1CD0, 0x1CD2), (0x1CD4, 0x1CE0), (0x1CE2, 0x1CE8),
  (0x1CED, 0x1CED), (0x1CF4, 0x1CF4), (0x1CF8, 0x1CF9), (0x1DC0, 0x1DFF),
  (0x200B, 0x200F), (0x202A, 0x202E), (0x2060, 0x2064), (0x2066, 0x206F),
  (0x20D0, 0x20F0), (0x2CEF, 0x2CF1), (0x2D7F, 0x2D7F), (0x2DE0, 0x2DFF),
  (0x302A, 0x302D), (0x3099, 0x309A), (0xA66F, 0xA672), (0xA674, 0xA67D),
  (0xA69E, 0xA69F), (0xA6F0, 0xA6F1), (0xA802, 0xA802), (0xA806, 0xA806),
  (0xA80B, 0xA80B), (0xA825, 0xA826), (0xA82C, 0xA82C), (0xA8C4, 0xA8C5),
  (0xA8E0, 0xA8F1), (0xA8FF, 0xA8FF), (0xA926, 0xA92D), (0xA947, 0xA951),
  (0xA980, 0xA982), (0xA9B3, 0xA9B3), (0xA9B6, 0xA9B9), (0xA9BC, 0xA9BD),
  (0xA9E5, 0xA9E5), (0xAA29, 0xAA2E), (0xAA31, 0xAA32), (0xAA35, 0xAA36),
  (0xAA43, 0xAA43), (0xAA4C, 0xAA4C), (0xAA7C, 0xAA7C), (0xAAB0, 0xAAB0),
  (0xAAB2, 0xAAB4), (0xAAB7, 0xAAB8), (0xAABE, 0xAABF), (0xAAC1, 0xAAC1),
  (0xAAEC, 0xAAED), (0xAAF6, 0xAAF6), (0xABE5, 0xABE5), (0xABE8, 0xABE8),
  (0xABED, 0xABED), (0xFB1E, 0xFB1E), (0xFE00, 0xFE0F), (0xFE20, 0xFE2F),
  (0xFEFF, 0xFEFF), (0xFFF9, 0xFFFB), (0x101FD, 0x101FD), (0x102E0, 0x102E0),
  (0x10376, 0x1037A), (0x10A01, 0x10A03), (0x10A05, 0x10A06), (0x10A0C, 0x10A0F),
  (0x10A38, 0x10A3A), (0x10A3F, 0x10A3F), (0x10AE5, 0x10AE6), (0x10D24, 0x10D27),
  (0x10D69, 0x10D6D), (0x10EAB, 0x10EAC), (0x10EFA, 0x10EFF), (0x10F46, 0x10F50),
  (0x10F82, 0x10F85), (0x11001, 0x11001), (0x11038, 0x11046), (0x11070, 0x11070),
  (0x11073, 0x11074), (0x1107F, 0x11081), (0x110B3, 0x110B6), (0x110B9, 0x110BA),
  (0x110BD, 0x110BD), (0x110C2, 0x110C2), (0x110CD, 0x110CD), (0x11100, 0x11102),
  (0x11127, 0x1112B), (0x1112D, 0x11134), (0x11173, 0x11173), (0x11180, 0x11181),
  (0x111B6, 0x111BE), (0x111C9, 0x111CC), (0x111CF, 0x111CF), (0x1122F, 0x11231),
  (0x11234, 0x11234), (0x11236, 0x11237), (0x1123E, 0x1123E), (0x11241, 0x11241),
  (0x112DF, 0x112DF), (0x112E3, 0x112EA), (0x11300, 0x11301), (0x1133B, 0x1133C),
  (0x11340, 0x11340), (0x11366, 0x1136C), (0x11370, 0x11374), (0x113BB, 0x113C0),
  (0x113CE, 0x113CE), (0x113D0, 0x113D0), (0x113D2, 0x113D2), (0x113E1, 0x113E2),
  (0x11438, 0x1143F), (0x11442, 0x11444), (0x11446, 0x11446), (0x1145E, 0x1145E),
  (0x114B3, 0x114B8), (0x114BA, 0x114BA), (0x114BF, 0x114C0), (0x114C2, 0x114C3),
  (0x115B2, 0x115B5), (0x115BC, 0x115BD), (0x115BF, 0x115C0), (0x115DC, 0x115DD),
  (0x11633, 0x1163A), (0x1163D, 0x1163D), (0x1163F, 0x11640), (0x116AB, 0x116AB),
  (0x116AD, 0x116AD), (0x116B0, 0x116B5), (0x116B7, 0x116B7), (0x1171D, 0x1171D),
  (0x1171F, 0x1171F), (0x11722, 0x11725), (0x11727, 0x1172B), (0x1182F, 0x11837),
  (0x11839, 0x1183A), (0x1193B, 0x1193C), (0x1193E, 0x1193E), (0x11943, 0x11943),
  (0x119D4, 0x119D7), (0x119DA, 0x119DB), (0x119E0, 0x119E0), (0x11A01, 0x11A0A),
  (0x11A33, 0x11A38), (0x11A3B, 0x11A3E), (0x11A47, 0x11A47), (0x11A51, 0x11A56),
  (0x11A59, 0x11A5B), (0x11A8A, 0x11A96), (0x11A98, 0x11A99), (0x11B60, 0x11B60),
  (0x11B62, 0x11B64), (0x11B66, 0x11B66), (0x11C30, 0x11C36), (0x11C38, 0x11C3D),
  (0x11C3F, 0x11C3F), (0x11C92, 0x11CA7), (0x11CAA, 0x11CB0), (0x11CB2, 0x11CB3),
  (0x11CB5, 0x11CB6), (0x11D31, 0x11D36), (0x11D3A, 0x11D3A), (0x11D3C, 0x11D3D),
  (0x11D3F, 0x11D45), (0x11D47, 0x11D47), (0x11D90, 0x11D91), (0x11D95, 0x11D95),
  (0x11D97, 0x11D97), (0x11EF3, 0x11EF4), (0x11F00, 0x11F01), (0x11F36, 0x11F3A),
  (0x11F40, 0x11F40), (0x11F42, 0x11F42), (0x11F5A, 0x11F5A), (0x13430, 0x13440),
  (0x13447, 0x13455), (0x1611E, 0x16129), (0x1612D, 0x1612F), (0x16AF0, 0x16AF4),
  (0x16B30, 0x16B36), (0x16F4F, 0x16F4F), (0x16F8F, 0x16F92), (0x16FE4, 0x16FE4),
  (0x1BC9D, 0x1BC9E), (0x1BCA0, 0x1BCA3), (0x1CF00, 0x1CF2D), (0x1CF30, 0x1CF46),
  (0x1D167, 0x1D169), (0x1D173, 0x1D182), (0x1D185, 0x1D18B), (0x1D1AA, 0x1D1AD),
  (0x1D242, 0x1D244), (0x1DA00, 0x1DA36), (0x1DA3B, 0x1DA6C), (0x1DA75, 0x1DA75),
  (0x1DA84, 0x1DA84), (0x1DA9B, 0x1DA9F), (0x1DAA1, 0x1DAAF), (0x1E000, 0x1E006),
  (0x1E008, 0x1E018), (0x1E01B, 0x1E021), (0x1E023, 0x1E024), (0x1E026, 0x1E02A),
  (0x1E08F, 0x1E08F), (0x1E130, 0x1E136), (0x1E2AE, 0x1E2AE), (0x1E2EC, 0x1E2EF),
  (0x1E4EC, 0x1E4EF), (0x1E5EE, 0x1E5EF), (0x1E6E3, 0x1E6E3), (0x1E6E6, 0x1E6E6),
  (0x1E6EE, 0x1E6EF), (0x1E6F5, 0x1E6F5), (0x1E8D0, 0x1E8D6), (0x1E944, 0x1E94A),
  (0xE0001, 0xE0001), (0xE0020, 0xE007F), (0xE0100, 0xE01EF)
]

/-- Double-width character ranges, from `DOUBLE_WIDTH_RANGES` in utflite.c. -/
def DOUBLE_WIDTH_RANGES : List (Nat × Nat) := [
  (0x00A9, 0x00A9), (0x00AE, 0x00AE), (0x1100, 0x115F), (0x203C, 0x203C),
  (0x2049, 0x2049), (0x2122, 0x2122), (0x2139, 0x2139), (0x2194, 0x2199),
  (0x21A9, 0x21AA), (0x231A, 0x231B), (0x2328, 0x232A), (0x23CF, 0x23CF),
  (0x23E9, 0x23F3), (0x23F8, 0x23FA), (0x24C2, 0x24C2), (0x25AA, 0x25AB),
  (0x25B6, 0x25B6), (0x25C0, 0x25C0), (0x25FB, 0x25FE), (0x2600, 0x2604),
  (0x260E, 0x260E), (0x2611, 0x2611), (0x2614, 0x2615), (0x2618, 0x2618),
  (0x261D, 0x261D), (0x2620, 0x2620), (0x2622, 0x2623), (0x2626, 0x2626),
  (0x262A, 0x262A), (0x262E, 0x263A), (0x2640, 0x2640), (0x2642, 0x2642),
  (0x2648, 0x2653), (0x265F, 0x2660), (0x2663, 0x2663), (0x2665, 0x2666),
  (0x2668, 0x2668), (0x267B, 0x267B), (0x267E, 0x267F), (0x268A, 0x268F),
  (0x2692, 0x2697), (0x2699, 0x2699), (0x269B, 0x269C), (0x26A0, 0x26A1),
  (0x26A7, 0x26A7), (0x26AA, 0x26AB), (0x26B0, 0x26B1), (0x26BD, 0x26BE),
  (0x26C4, 0x26C5), (0x26C8, 0x26C8), (0x26CE, 0x26CF), (0x26D1, 0x26D1),
  (0x26D3, 0x26D4), (0x26E9, 0x26EA), (0x26F0, 0x26F5), (0x26F7, 0x26FA),
  (0x26FD, 0x26FD), (0x2702, 0x2702), (0x2705, 0x2705), (0x2708, 0x270D),
  (0x270F, 0x270F), (0x2712, 0x2712), (0x2714, 0x2714), (0x2716, 0x2716),
  (0x271D, 0x271D), (0x2721, 0x2721), (0x2728, 0x2728), (0x2733, 0x2734),
  (0x2744, 0x2744), (0x2747, 0x2747), (0x274C, 0x274C), (0x274E, 0x274E),
  (0x2753, 0x2755), (0x2757, 0x2757), (0x2763, 0x2764), (0x2795, 0x2797),
  (0x27A1, 0x27A1), (0x27B0, 0x27B0), (0x27BF, 0x27BF), (0x2934, 0x2935),
  (0x2B05, 0x2B07), (0x2B1B, 0x2B1C), (0x2B50, 0x2B50), (0x2B55, 0x2B55),
  (0x2E80, 0x2E99), (0x2E9B, 0x2EF3), (0x2F00, 0x2FD5), (0x2FF0, 0x303E),
  (0x3041, 0x3096), (0x3099, 0x30FF), (0x3105, 0x312F), (0x3131, 0x318E),
  (0x3190, 0x31E5), (0x31EF, 0x321E), (0x3220, 0x3247), (0x3250, 0xA48C),
  (0xA490, 0xA4C6), (0xA960, 0xA97C), (0xAC00, 0xD7A3), (0xF900, 0xFAFF),
  (0xFE10, 0xFE19), (0xFE30, 0xFE52), (0xFE54, 0xFE66), (0xFE68, 0xFE6B),
  (0xFF01, 0xFF60), (0xFFE0, 0xFFE6), (0x16FE0, 0x16FE4), (0x16FF0, 0x16FF6),
  (0x17000, 0x18CD5), (0x18CFF, 0x18D1E), (0x18D80, 0x18DF2), (0x1AFF0, 0x1AFF3),
  (0x1AFF5, 0x1AFFB), (0x1AFFD, 0x1AFFE), (0x1B000, 0x1B122), (0x1B132, 0x1B132),
  (0x1B150, 0x1B152), (0x1B155, 0x1B155), (0x1B164, 0x1B167), (0x1B170, 0x1B2FB),
  (0x1D300, 0x1D356), (0x1D360, 0x1D376), (0x1F004, 0x1F004), (0x1F02C, 0x1F02F),
  (0x1F094, 0x1F09F), (0x1F0AF, 0x1F0B0), (0x1F0C0, 0x1F0C0), (0x1F0CF, 0x1F0D0),
  (0x1F0F6, 0x1F0FF), (0x1F170, 0x1F171), (0x1F17E, 0x1F17F), (0x1F18E, 0x1F18E),
  (0x1F191, 0x1F19A), (0x1F1AE, 0x1F1E5), (0x1F200, 0x1F321), (0x1F324, 0x1F393),
  (0x1F396, 0x1F397), (0x1F399, 0x1F39B), (0x1F39E, 0x1F3F0), (0x1F3F3, 0x1F3F5),
  (0x1F3F7, 0x1F4FD), (0x1F4FF, 0x1F53D), (0x1F549, 0x1F54E), (0x1F550, 0x1F567),
  (0x1F56F, 0x1F570), (0x1F573, 0x1F57A), (0x1F587, 0x1F587), (0x1F58A, 0x1F58D),
  (0x1F590, 0x1F590), (0x1F595, 0x1F596), (0x1F5A4, 0x1F5A5), (0x1F5A8, 0x1F5A8),
  (0x1F5B1, 0x1F5B2), (0x1F5BC, 0x1F5BC), (0x1F5C2, 0x1F5C4), (0x1F5D1, 0x1F5D3),
  (0x1F5DC, 0x1F5DE), (0x1F5E1, 0x1F5E1), (0x1F5E3, 0x1F5E3), (0x1F5E8, 0x1F5E8),
  (0x1F5EF, 0x1F5EF), (0x1F5F3, 0x1F5F3), (0x1F5FA, 0x1F64F), (0x1F680, 0x1F6C5),
  (0x1F6CB, 0x1F6D2), (0x1F6D5, 0x1F6E5), (0x1F6E9, 0x1F6E9), (0x1F6EB, 0x1F6F0),
  (0x1F6F3, 0x1F6FF), (0x1F7DA, 0x1F7FF), (0x1F80C, 0x1F80F), (0x1F848, 0x1F84F),
  (0x1F85A, 0x1F85F), (0x1F888, 0x1F88F), (0x1F8AE, 0x1F8AF), (0x1F8BC, 0x1F8BF),
  (0x1F8C2, 0x1F8CF), (0x1F8D9, 0x1F8FF), (0x1F90C, 0x1F93A), (0x1F93C, 0x1F945),
  (0x1F947, 0x1F9FF), (0x1FA58, 0x1FA5F), (0x1FA6E, 0x1FAFF), (0x1FC00, 0x1FFFD),
  (0x20000, 0x2FFFD), (0x30000, 0x3FFFD)
]

/-- Grapheme cluster break property ranges, from `GCB_RANGES` in utflite.c. -/
def GCB_RANGES : List (Nat × Nat × GcbProp) := [
  (0x0000, 0x0009, GcbProp.control), (0x000A, 0x000A, GcbProp.lf),
  (0x000B, 0x000C, GcbProp.control), (0x000D, 0x000D, GcbProp.cr),
  (0x000E, 0x001F, GcbProp.control), (0x007F, 0x009F, GcbProp.control),
  (0x00AD, 0x00AD, GcbProp.control), (0x0300, 0x036F, GcbProp.extend),
  (0x0483, 0x0489, GcbProp.extend), (0x0591, 0x05BD, GcbProp.extend),
  (0x05BF, 0x05BF, GcbProp.extend), (0x05C1, 0x05C2, GcbProp.extend),
  (0x05C4, 0x05C5, GcbProp.extend), (0x05C7, 0x05C7, GcbProp.extend),
  (0x0600, 0x0605, GcbProp.prepend), (0x0610, 0x061A, GcbProp.extend),
  (0x061C, 0x061C, GcbProp.control), (0x064B, 0x065F, GcbProp.extend),
  (0x0670, 0x0670, GcbProp.extend), (0x06D6, 0x06DC, GcbProp.extend),
  (0x06DD, 0x06DD, GcbProp.prepend), (0x06DF, 0x06E4, GcbProp.extend),
  (0x06E7, 0x06E8, GcbProp.extend), (0x06EA, 0x06ED, GcbProp.extend),
  (0x070F, 0x070F, GcbProp.prepend), (0x0711, 0x0711, GcbProp.extend),
  (0x0730, 0x074A, GcbProp.extend), (0x07A6, 0x07B0, GcbProp.extend),
  (0x07EB, 0x07F3, GcbProp.extend), (0x07FD, 0x07FD, GcbProp.extend),
  (0x0816, 0x0819, GcbProp.extend), (0x081B, 0x0823, GcbProp.extend),
  (0x0825, 0x0827, GcbProp.extend), (0x0829, 0x082D, GcbProp.extend),
  (0x0859, 0x085B, GcbProp.extend), (0x0890, 0x0891, GcbProp.prepend),
  (0x0897, 0x089F, GcbProp.extend), (0x08CA, 0x08E1, GcbProp.extend),
  (0x08E2, 0x08E2, GcbProp.prepend), (0x08E3, 0x0902, GcbProp.extend),
  (0x0903, 0x0903, GcbProp.spacingMark), (0x093A, 0x093A, GcbProp.extend),
  (0x093B, 0x093B, GcbProp.spacingMark), (0x093C, 0x093C, GcbProp.extend),
  (0x093E, 0x0940, GcbProp.spacingMark), (0x0941, 0x0948, GcbProp.extend),
  (0x0949, 0x094C, GcbProp.spacingMark), (0x094D, 0x094D, GcbProp.extend),
  (0x094E, 0x094F, GcbProp.spacingMark), (0x0951, 0x0957, GcbProp.extend),
  (0x0962, 0x0963, GcbProp.extend), (0x0981, 0x0981, GcbProp.extend),
  (0x0982, 0x0983, GcbProp.spacingMark), (0x09BC, 0x09BC, GcbProp.extend),
  (0x09BE, 0x09BE, GcbProp.extend), (0x09BF, 0x09C0, GcbProp.spacingMark),
  (0x09C1, 0x09C4, GcbProp.extend), (0x09C7, 0x09C8, GcbProp.spacingMark),
  (0x09CB, 0x09CC, GcbProp.spacingMark), (0x09CD, 0x09CD, GcbProp.extend),
  (0x09D7, 0x09D7, GcbProp.extend), (0x09E2, 0x09E3, GcbProp.extend),
  (0x09FE, 0x09FE, GcbProp.extend), (0x0A01, 0x0A02, GcbProp.extend),
  (0x0A03, 0x0A03, GcbProp.spacingMark), (0x0A3C, 0x0A3C, GcbProp.extend),
  (0x0A3E, 0x0A40, GcbProp.spacingMark), (0x0A41, 0x0A42, GcbProp.extend),
  (0x0A47, 0x0A48, GcbProp.extend), (0x0A4B, 0x0A4D, GcbProp.extend),
  (0x0A51, 0x0A51, GcbProp.extend), (0x0A70, 0x0A71, GcbProp.extend),
  (0x0A75, 0x0A75, GcbProp.extend), (0x0A81, 0x0A82, GcbProp.extend),
  (0x0A83, 0x0A83, GcbProp.spacingMark), (0x0ABC, 0x0ABC, GcbProp.extend),
  (0x0ABE, 0x0AC0, GcbProp.spacingMark), (0x0AC1, 0x0AC5, GcbProp.extend),
  (0x0AC7, 0x0AC8, GcbProp.extend), (0x0AC9, 0x0AC9, GcbProp.spacingMark),
  (0x0ACB, 0x0ACC, GcbProp.spacingMark), (0x0ACD, 0x0ACD, GcbProp.extend),
  (0x0AE2, 0x0AE3, GcbProp.extend), (0x0AFA, 0x0AFF, GcbProp.extend),
  (0x0B01, 0x0B01, GcbProp.extend), (0x0B02, 0x0B03, GcbProp.spacingMark),
  (0x0B3C, 0x0B3C, GcbProp.extend), (0x0B3E, 0x0B3F, GcbProp.extend),
  (0x0B40, 0x0B40, GcbProp.spacingMark), (0x0B41, 0x0B44, GcbProp.extend),
  (0x0B47, 0x0B48, GcbProp.spacingMark), (0x0B4B, 0x0B4C, GcbProp.spacingMark),
  (0x0B4D, 0x0B4D, GcbProp.extend), (0x0B55, 0x0B57, GcbProp.extend),
  (0x0B62, 0x0B63, GcbProp.extend), (0x0B82, 0x0B82, GcbProp.extend),
  (0x0BBE, 0x0BBE, GcbProp.extend), (0x0BBF, 0x0BBF, GcbProp.spacingMark),
  (0x0BC0, 0x0BC0, GcbProp.extend), (0x0BC1, 0x0BC2, GcbProp.spacingMark),
  (0x0BC6, 0x0BC8, GcbProp.spacingMark), (0x0BCA, 0x0BCC, GcbProp.spacingMark),
  (0x0BCD, 0x0BCD, GcbProp.extend), (0x0BD7, 0x0BD7, GcbProp.extend),
  (0x0C00, 0x0C00, GcbProp.extend), (0x0C01, 0x0C03, GcbProp.spacingMark),
  (0x0C04, 0x0C04, GcbProp.extend), (0x0C3C, 0x0C3C, GcbProp.extend),
  (0x0C3E, 0x0C40, GcbProp.extend), (0x0C41, 0x0C44, GcbProp.spacingMark),
  (0x0C46, 0x0C48, GcbProp.extend), (0x0C4A, 0x0C4D, GcbProp.extend),
  (0x0C55, 0x0C56, GcbProp.extend), (0x0C62, 0x0C63, GcbProp.extend),
  (0x0C81, 0x0C81, GcbProp.extend), (0x0C82, 0x0C83, GcbProp.spacingMark),
  (0x0CBC, 0x0CBC, GcbProp.extend), (0x0CBE, 0x0CBE, GcbProp.spacingMark),
  (0x0CBF, 0x0CC2, GcbProp.extend), (0x0CC3, 0x0CC4, GcbProp.spacingMark),
  (0x0CC6, 0x0CCB, GcbProp.extend), (0x0CCC, 0x0CCD, GcbProp.extend),
  (0x0CD5, 0x0CD6, GcbProp.extend), (0x0CE2, 0x0CE3, GcbProp.extend),
  (0x0CF3, 0x0CF3, GcbProp.spacingMark), (0x0D00, 0x0D01, GcbProp.extend),
  (0x0D02, 0x0D03, GcbProp.spacingMark), (0x0D3B, 0x0D3C, GcbProp.extend),
  (0x0D3E, 0x0D3E, GcbProp.extend), (0x0D3F, 0x0D40, GcbProp.spacingMark),
  (0x0D41, 0x0D44, GcbProp.extend), (0x0D46, 0x0D48, GcbProp.spacingMark),
  (0x0D4A, 0x0D4C, GcbProp.spacingMark), (0x0D4D, 0x0D4D, GcbProp.extend),
  (0x0D4E, 0x0D4E, GcbProp.prepend), (0x0D57, 0x0D57, GcbProp.extend),
  (0x0D62, 0x0D63, GcbProp.extend), (0x0D81, 0x0D81, GcbProp.extend),
  (0x0D82, 0x0D83, GcbProp.spacingMark), (0x0DCA, 0x0DCA, GcbProp.extend),
  (0x0DCF, 0x0DCF, GcbProp.extend), (0x0DD0, 0x0DD1, GcbProp.spacingMark),
  (0x0DD2, 0x0DD6, GcbProp.extend), (0x0DD8, 0x0DDF, GcbProp.spacingMark),
  (0x0DF2, 0x0DF3, GcbProp.spacingMark), (0x0E31, 0x0E31, GcbProp.extend),
  (0x0E33, 0x0E33, GcbProp.spacingMark), (0x0E34, 0x0E3A, GcbProp.extend),
  (0x0E47, 0x0E4E, GcbProp.extend), (0x0EB1, 0x0EB1, GcbProp.extend),
  (0x0EB3, 0x0EB3, GcbProp.spacingMark), (0x0EB4, 0x0EBC, GcbProp.extend),
  (0x0EC8, 0x0ECE, GcbProp.extend), (0x0F18, 0x0F19, GcbProp.extend),
  (0x0F35, 0x0F35, GcbProp.extend), (0x0F37, 0x0F37, GcbProp.extend),
  (0x0F39, 0x0F39, GcbProp.extend), (0x0F3E, 0x0F3F, GcbProp.spacingMark),
  (0x0F71, 0x0F7E, GcbProp.extend), (0x0F7F, 0x0F7F, GcbProp.spacingMark),
  (0x0F80, 0x0F84, GcbProp.extend), (0x0F86, 0x0F87, GcbProp.extend),
  (0x0F8D, 0x0F97, GcbProp.extend), (0x0F99, 0x0FBC, GcbProp.extend),
  (0x0FC6, 0x0FC6, GcbProp.extend), (0x102D, 0x1030, GcbProp.extend),
  (0x1031, 0x1031, GcbProp.spacingMark), (0x1032, 0x1037, GcbProp.extend),
  (0x1039, 0x103A, GcbProp.extend), (0x103B, 0x103C, GcbProp.spacingMark),
  (0x103D, 0x103E, GcbProp.extend), (0x1056, 0x1057, GcbProp.spacingMark),
  (0x1058, 0x1059, GcbProp.extend), (0x105E, 0x1060, GcbProp.extend),
  (0x1071, 0x1074, GcbProp.extend), (0x1082, 0x1082, GcbProp.extend),
  (0x1084, 0x1084, GcbProp.spacingMark), (0x1085, 0x1086, GcbProp.extend),
  (0x108D, 0x108D, GcbProp.extend), (0x109D, 0x109D, GcbProp.extend),
  (0x1100, 0x115F, GcbProp.l), (0x1160, 0x11A7, GcbProp.v),
  (0x11A8, 0x11FF, GcbProp.t), (0x135D, 0x135F, GcbProp.extend),
  (0x1712, 0x1715, GcbProp.extend), (0x1732, 0x1734, GcbProp.extend),
  (0x1752, 0x1753, GcbProp.extend), (0x1772, 0x1773, GcbProp.extend),
  (0x17B4, 0x17B5, GcbProp.extend), (0x17B6, 0x17B6, GcbProp.spacingMark),
  (0x17B7, 0x17BD, GcbProp.extend), (0x17BE, 0x17C5, GcbProp.spacingMark),
  (0x17C6, 0x17C6, GcbProp.extend), (0x17C7, 0x17C8, GcbProp.spacingMark),
  (0x17C9, 0x17D3, GcbProp.extend), (0x17DD, 0x17DD, GcbProp.extend),
  (0x180B, 0x180D, GcbProp.extend), (0x180E, 0x180E, GcbProp.control),
  (0x180F, 0x180F, GcbProp.extend), (0x1885, 0x1886, GcbProp.extend),
  (0x18A9, 0x18A9, GcbProp.extend), (0x1920, 0x1922, GcbProp.extend),
  (0x1923, 0x1926, GcbProp.spacingMark), (0x1927, 0x1928, GcbProp.extend),
  (0x1929, 0x192B, GcbProp.spacingMark), (0x1930, 0x1931, GcbProp.spacingMark),
  (0x1932, 0x1932, GcbProp.extend), (0x1933, 0x1938, GcbProp.spacingMark),
  (0x1939, 0x193B, GcbProp.extend), (0x1A17, 0x1A18, GcbProp.extend),
  (0x1A19, 0x1A1A, GcbProp.spacingMark), (0x1A1B, 0x1A1B, GcbProp.extend),
  (0x1A55, 0x1A55, GcbProp.spacingMark), (0x1A56, 0x1A56, GcbProp.extend),
  (0x1A57, 0x1A57, GcbProp.spacingMark), (0x1A58, 0x1A60, GcbProp.extend),
  (0x1A62, 0x1A62, GcbProp.extend), (0x1A65, 0x1A6C, GcbProp.extend),
  (0x1A6D, 0x1A72, GcbProp.spacingMark), (0x1A73, 0x1A7F, GcbProp.extend),
  (0x1AB0, 0x1AEB, GcbProp.extend), (0x1B00, 0x1B03, GcbProp.extend),
  (0x1B04, 0x1B04, GcbProp.spacingMark), (0x1B34, 0x1B3C, GcbProp.extend),
  (0x1B3D, 0x1B41, GcbProp.spacingMark), (0x1B42, 0x1B44, GcbProp.extend),
  (0x1B6B, 0x1B73, GcbProp.extend), (0x1B80, 0x1B81, GcbProp.extend),
  (0x1B82, 0x1B82, GcbProp.spacingMark), (0x1BA1, 0x1BA1, GcbProp.spacingMark),
  (0x1BA2, 0x1BA5, GcbProp.extend), (0x1BA6, 0x1BA7, GcbProp.spacingMark),
  (0x1BA8, 0x1BAD, GcbProp.extend), (0x1BE6, 0x1BE6, GcbProp.extend),
  (0x1BE7, 0x1BE7, GcbProp.spacingMark), (0x1BE8, 0x1BE9, GcbProp.extend),
  (0x1BEA, 0x1BEC, GcbProp.spacingMark), (0x1BED, 0x1BED, GcbProp.extend),
  (0x1BEE, 0x1BEE, GcbProp.spacingMark), (0x1BEF, 0x1BF3, GcbProp.extend),
  (0x1C24, 0x1C2B, GcbProp.spacingMark), (0x1C2C, 0x1C33, GcbProp.extend),
  (0x1C34, 0x1C35, GcbProp.spacingMark), (0x1C36, 0x1C37, GcbProp.extend),
  (0x1CD0, 0x1CD2, GcbProp.extend), (0x1CD4, 0x1CE0, GcbProp.extend),
  (0x1CE1, 0x1CE1, GcbProp.spacingMark), (0x1CE2, 0x1CE8, GcbProp.extend),
  (0x1CED, 0x1CED, GcbProp.extend), (0x1CF4, 0x1CF4, GcbProp.extend),
  (0x1CF7, 0x1CF7, GcbProp.spacingMark), (0x1CF8, 0x1CF9, GcbProp.extend),
  (0x1DC0, 0x1DFF, GcbProp.extend), (0x200B, 0x200B, GcbProp.control),
  (0x200C, 0x200C, GcbProp.extend), (0x200D, 0x200D, GcbProp.zwj),
  (0x200E, 0x200F, GcbProp.control), (0x2028, 0x202E, GcbProp.control),
  (0x2060, 0x206F, GcbProp.control), (0x20D0, 0x20F0, GcbProp.extend),
  (0x2CEF, 0x2CF1, GcbProp.extend), (0x2D7F, 0x2D7F, GcbProp.extend),
  (0x2DE0, 0x2DFF, GcbProp.extend), (0x302A, 0x302F, GcbProp.extend),
  (0x3099, 0x309A, GcbProp.extend), (0xA66F, 0xA672, GcbProp.extend),
  (0xA674, 0xA67D, GcbProp.extend), (0xA69E, 0xA69F, GcbProp.extend),
  (0xA6F0, 0xA6F1, GcbProp.extend), (0xA802, 0xA802, GcbProp.extend),
  (0xA806, 0xA806, GcbProp.extend), (0xA80B, 0xA80B, GcbProp.extend),
  (0xA823, 0xA824, GcbProp.spacingMark), (0xA825, 0xA826, GcbProp.extend),
  (0xA827, 0xA827, GcbProp.spacingMark), (0xA82C, 0xA82C, GcbProp.extend),
  (0xA880, 0xA881, GcbProp.spacingMark), (0xA8B4, 0xA8C3, GcbProp.spacingMark),
  (0xA8C4, 0xA8C5, GcbProp.extend), (0xA8E0, 0xA8F1, GcbProp.extend),
  (0xA8FF, 0xA8FF, GcbProp.extend), (0xA926, 0xA92D, GcbProp.extend),
  (0xA947, 0xA951, GcbProp.extend), (0xA952, 0xA952, GcbProp.spacingMark),
  (0xA953, 0xA953, GcbProp.extend), (0xA960, 0xA97C, GcbProp.l),
  (0xA980, 0xA982, GcbProp.extend), (0xA983, 0xA983, GcbProp.spacingMark),
  (0xA9B3, 0xA9B3, GcbProp.extend), (0xA9B4, 0xA9B5, GcbProp.spacingMark),
  (0xA9B6, 0xA9B9, GcbProp.extend), (0xA9BA, 0xA9BB, GcbProp.spacingMark),
  (0xA9BC, 0xA9C0, GcbProp.extend), (0xA9E5, 0xA9E5, GcbProp.extend),
  (0xAA29, 0xAA2E, GcbProp.extend), (0xAA2F, 0xAA30, GcbProp.spacingMark),
  (0xAA31, 0xAA32, GcbProp.extend), (0xAA33, 0xAA34, GcbProp.spacingMark),
  (0xAA35, 0xAA36, GcbProp.extend), (0xAA43, 0xAA43, GcbProp.extend),
  (0xAA4C, 0xAA4C, GcbProp.extend), (0xAA4D, 0xAA4D, GcbProp.spacingMark),
  (0xAA7C, 0xAA7C, GcbProp.extend), (0xAAB0, 0xAAB0, GcbProp.extend),
  (0xAAB2, 0xAAB4, GcbProp.extend), (0xAAB7, 0xAAB8, GcbProp.extend),
  (0xAABE, 0xAAC1, GcbProp.extend), (0xAAEB, 0xAAEB, GcbProp.spacingMark),
  (0xAAEC, 0xAAED, GcbProp.extend), (0xAAEE, 0xAAEF, GcbProp.spacingMark),
  (0xAAF5, 0xAAF5, GcbProp.spacingMark), (0xAAF6, 0xAAF6, GcbProp.extend),
  (0xABE3, 0xABE4, GcbProp.spacingMark), (0xABE5, 0xABE5, GcbProp.extend),
  (0xABE6, 0xABE7, GcbProp.spacingMark), (0xABE8, 0xABE8, GcbProp.extend),
  (0xABE9, 0xABEA, GcbProp.spacingMark), (0xABEC, 0xABEC, GcbProp.spacingMark),
  (0xABED, 0xABED, GcbProp.extend), (0xD7B0, 0xD7C6, GcbProp.v),
  (0xD7CB, 0xD7FB, GcbProp.t), (0xFB1E, 0xFB1E, GcbProp.extend),
  (0xFE00, 0xFE0F, GcbProp.extend), (0xFE20, 0xFE2F, GcbProp.extend),
  (0xFEFF, 0xFEFF, GcbProp.control), (0xFF9E, 0xFF9F, GcbProp.extend),
  (0xFFF0, 0xFFFB, GcbProp.control), (0x101FD, 0x101FD, GcbProp.extend),
  (0x102E0, 0x102E0, GcbProp.extend), (0x10376, 0x1037A, GcbProp.extend),
  (0x10A01, 0x10A03, GcbProp.extend), (0x10A05, 0x10A06, GcbProp.extend),
  (0x10A0C, 0x10A0F, GcbProp.extend), (0x10A38, 0x10A3F, GcbProp.extend),
  (0x10AE5, 0x10AE6, GcbProp.extend), (0x10D24, 0x10D27, GcbProp.extend),
  (0x10D69, 0x10D6D, GcbProp.extend), (0x10EAB, 0x10EAC, GcbProp.extend),
  (0x10EFA, 0x10EFF, GcbProp.extend), (0x10F46, 0x10F50, GcbProp.extend),
  (0x10F82, 0x10F85, GcbProp.extend), (0x11000, 0x11000, GcbProp.spacingMark),
  (0x11001, 0x11001, GcbProp.extend), (0x11002, 0x11002, GcbProp.spacingMark),
  (0x11038, 0x11046, GcbProp.extend), (0x11070, 0x11070, GcbProp.extend),
  (0x11073, 0x11074, GcbProp.extend), (0x1107F, 0x11081, GcbProp.extend),
  (0x11082, 0x11082, GcbProp.spacingMark), (0x110B0, 0x110B2, GcbProp.spacingMark),
  (0x110B3, 0x110B6, GcbProp.extend), (0x110B7, 0x110B8, GcbProp.spacingMark),
  (0x110B9, 0x110BA, GcbProp.extend), (0x110BD, 0x110BD, GcbProp.prepend),
  (0x110C2, 0x110C2, GcbProp.extend), (0x110CD, 0x110CD, GcbProp.prepend),
  (0x11100, 0x11102, GcbProp.extend), (0x11127, 0x1112B, GcbProp.extend),
  (0x1112C, 0x1112C, GcbProp.spacingMark), (0x1112D, 0x11134, GcbProp.extend),
  (0x11145, 0x11146, GcbProp.spacingMark), (0x11173, 0x11173, GcbProp.extend),
  (0x11180, 0x11181, GcbProp.extend), (0x11182, 0x11182, GcbProp.spacingMark),
  (0x111B3, 0x111B5, GcbProp.spacingMark), (0x111B6, 0x111BF, GcbProp.extend),
  (0x111C0, 0x111C0, GcbProp.extend), (0x111C2, 0x111C3, GcbProp.prepend),
  (0x111C9, 0x111CF, GcbProp.extend), (0x1122C, 0x1122E, GcbProp.spacingMark),
  (0x1122F, 0x11231, GcbProp.extend), (0x11232, 0x11233, GcbProp.spacingMark),
  (0x11234, 0x11237, GcbProp.extend), (0x1123E, 0x1123E, GcbProp.extend),
  (0x11241, 0x11241, GcbProp.extend), (0x112DF, 0x112DF, GcbProp.extend),
  (0x112E0, 0x112E2, GcbProp.spacingMark), (0x112E3, 0x112EA, GcbProp.extend),
  (0x11300, 0x11301, GcbProp.extend), (0x11302, 0x11303, GcbProp.spacingMark),
  (0x1133B, 0x1133C, GcbProp.extend), (0x1133E, 0x1133E, GcbProp.extend),
  (0x1133F, 0x1133F, GcbProp.spacingMark), (0x11340, 0x11340, GcbProp.extend),
  (0x11341, 0x11344, GcbProp.spacingMark), (0x11347, 0x11348, GcbProp.spacingMark),
  (0x1134B, 0x1134D, GcbProp.extend), (0x11357, 0x11357, GcbProp.extend),
  (0x11362, 0x11363, GcbProp.spacingMark), (0x11366, 0x11374, GcbProp.extend),
  (0x113B8, 0x113C0, GcbProp.extend), (0x113B9, 0x113BA, GcbProp.spacingMark),
  (0x113C2, 0x113D2, GcbProp.extend), (0x113CA, 0x113CD, GcbProp.spacingMark),
  (0x113D1, 0x113D1, GcbProp.prepend), (0x113E1, 0x113E2, GcbProp.extend),
  (0x11435, 0x11437, GcbProp.spacingMark), (0x11438, 0x1143F, GcbProp.extend),
  (0x11440, 0x11441, GcbProp.spacingMark), (0x11442, 0x11446, GcbProp.extend),
  (0x11445, 0x11445, GcbProp.spacingMark), (0x1145E, 0x1145E, GcbProp.extend),
  (0x114B0, 0x114B2, GcbProp.spacingMark), (0x114B3, 0x114B8, GcbProp.extend),
  (0x114B9, 0x114B9, GcbProp.spacingMark), (0x114BA, 0x114BA, GcbProp.extend),
  (0x114BB, 0x114BE, GcbProp.spacingMark), (0x114BF, 0x114C3, GcbProp.extend),
  (0x114C1, 0x114C1, GcbProp.spacingMark), (0x115AF, 0x115B1, GcbProp.spacingMark),
  (0x115B2, 0x115B5, GcbProp.extend), (0x115B8, 0x115BB, GcbProp.spacingMark),
  (0x115BC, 0x115C0, GcbProp.extend), (0x115BE, 0x115BE, GcbProp.spacingMark),
  (0x115DC, 0x115DD, GcbProp.extend), (0x11630, 0x11632, GcbProp.spacingMark),
  (0x11633, 0x1163A, GcbProp.extend), (0x1163B, 0x1163C, GcbProp.spacingMark),
  (0x1163D, 0x11640, GcbProp.extend), (0x1163E, 0x1163E, GcbProp.spacingMark),
  (0x116AB, 0x116AB, GcbProp.extend), (0x116AC, 0x116AC, GcbProp.spacingMark),
  (0x116AD, 0x116B7, GcbProp.extend), (0x116AE, 0x116AF, GcbProp.spacingMark),
  (0x1171D, 0x1171F, GcbProp.extend), (0x1171E, 0x1171E, GcbProp.spacingMark),
  (0x11722, 0x11725, GcbProp.extend), (0x11726, 0x11726, GcbProp.spacingMark),
  (0x11727, 0x1172B, GcbProp.extend), (0x1182C, 0x1182E, GcbProp.spacingMark),
  (0x1182F, 0x11837, GcbProp.extend), (0x11838, 0x11838, GcbProp.spacingMark),
  (0x11839, 0x1183A, GcbProp.extend), (0x11930, 0x11935, GcbProp.spacingMark),
  (0x11937, 0x11938, GcbProp.spacingMark), (0x1193B, 0x1193E, GcbProp.extend),
  (0x1193F, 0x1193F, GcbProp.prepend), (0x11940, 0x11940, GcbProp.spacingMark),
  (0x11941, 0x11941, GcbProp.prepend), (0x11942, 0x11943, GcbProp.extend),
  (0x119D1, 0x119D3, GcbProp.spacingMark), (0x119D4, 0x119DB, GcbProp.extend),
  (0x119DC, 0x119DF, GcbProp.spacingMark), (0x119E0, 0x119E0, GcbProp.extend),
  (0x119E4, 0x119E4, GcbProp.spacingMark), (0x11A01, 0x11A0A, GcbProp.extend),
  (0x11A33, 0x11A38, GcbProp.extend), (0x11A39, 0x11A39, GcbProp.spacingMark),
  (0x11A3B, 0x11A47, GcbProp.extend), (0x11A51, 0x11A56, GcbProp.extend),
  (0x11A57, 0x11A58, GcbProp.spacingMark), (0x11A59, 0x11A5B, GcbProp.extend),
  (0x11A84, 0x11A89, GcbProp.prepend), (0x11A8A, 0x11A99, GcbProp.extend),
  (0x11A97, 0x11A97, GcbProp.spacingMark), (0x11B60, 0x11B67, GcbProp.extend),
  (0x11C2F, 0x11C2F, GcbProp.spacingMark), (0x11C30, 0x11C3F, GcbProp.extend),
  (0x11C3E, 0x11C3E, GcbProp.spacingMark), (0x11C92, 0x11CB6, GcbProp.extend),
  (0x11CA9, 0x11CA9, GcbProp.spacingMark), (0x11CB1, 0x11CB1, GcbProp.spacingMark),
  (0x11CB4, 0x11CB4, GcbProp.spacingMark), (0x11D31, 0x11D47, GcbProp.extend),
  (0x11D46, 0x11D46, GcbProp.prepend), (0x11D8A, 0x11D8E, GcbProp.spacingMark),
  (0x11D90, 0x11D97, GcbProp.extend), (0x11D93, 0x11D94, GcbProp.spacingMark),
  (0x11D96, 0x11D96, GcbProp.spacingMark), (0x11EF3, 0x11EF6, GcbProp.extend),
  (0x11EF5, 0x11EF6, GcbProp.spacingMark), (0x11F00, 0x11F01, GcbProp.extend),
  (0x11F02, 0x11F02, GcbProp.prepend), (0x11F03, 0x11F03, GcbProp.spacingMark),
  (0x11F34, 0x11F35, GcbProp.spacingMark), (0x11F36, 0x11F42, GcbProp.extend),
  (0x11F3E, 0x11F3F, GcbProp.spacingMark), (0x11F5A, 0x11F5A, GcbProp.extend),
  (0x13430, 0x1343F, GcbProp.control), (0x13440, 0x13455, GcbProp.extend),
  (0x1611E, 0x1612F, GcbProp.extend), (0x1612A, 0x1612C, GcbProp.spacingMark),
  (0x16AF0, 0x16AF4, GcbProp.extend), (0x16B30, 0x16B36, GcbProp.extend),
  (0x16D63, 0x16D63, GcbProp.v), (0x16D67, 0x16D6A, GcbProp.v),
  (0x16F4F, 0x16F4F, GcbProp.extend), (0x16F51, 0x16F87, GcbProp.spacingMark),
  (0x16F8F, 0x16F92, GcbProp.extend), (0x16FE4, 0x16FE4, GcbProp.extend),
  (0x16FF0, 0x16FF1, GcbProp.extend), (0x1BC9D, 0x1BC9E, GcbProp.extend),
  (0x1BCA0, 0x1BCA3, GcbProp.control), (0x1CF00, 0x1CF46, GcbProp.extend),
  (0x1D165, 0x1D172, GcbProp.extend), (0x1D173, 0x1D17A, GcbProp.control),
  (0x1D17B, 0x1D1AD, GcbProp.extend), (0x1D242, 0x1D244, GcbProp.extend),
  (0x1DA00, 0x1DA36, GcbProp.extend), (0x1DA3B, 0x1DA6C, GcbProp.extend),
  (0x1DA75, 0x1DA75, GcbProp.extend), (0x1DA84, 0x1DA84, GcbProp.extend),
  (0x1DA9B, 0x1DAAF, GcbProp.extend), (0x1E000, 0x1E02A, GcbProp.extend),
  (0x1E08F, 0x1E08F, GcbProp.extend), (0x1E130, 0x1E136, GcbProp.extend),
  (0x1E2AE, 0x1E2AE, GcbProp.extend), (0x1E2EC, 0x1E2EF, GcbProp.extend),
  (0x1E4EC, 0x1E4EF, GcbProp.extend), (0x1E5EE, 0x1E5EF, GcbProp.extend),
  (0x1E6E3, 0x1E6F5, GcbProp.extend), (0x1E8D0, 0x1E8D6, GcbProp.extend),
  (0x1E944, 0x1E94A, GcbProp.extend), (0x1F1E6, 0x1F1FF, GcbProp.regionalIndicator),
  (0x1F3FB, 0x1F3FF, GcbProp.extend), (0xE0000, 0xE0FFF, GcbProp.control),
  (0xE0020, 0xE007F, GcbProp.extend), (0xE0100, 0xE01EF, GcbProp.extend)
]

/-- Indic conjunct break linker codepoints, from `INCB_LINKERS` in utflite.c. -/
def INCB_LINKERS : List Nat := [
  0x094D, 0x09CD, 0x0ACD, 0x0B4D, 0x0C4D, 0x0D4D, 0x1039, 0x103A, 0x1714, 0x1715, 0x17D2, 0x1A60, 0x1B44, 0x1BAA, 0x1BAB, 0xA806, 0xA8C4, 0xA9C0, 0xAAF6, 0x10A3F, 0x11046, 0x110B9, 0x11133, 0x11134, 0x111C0, 0x11235, 0x1134D, 0x11442, 0x114C2, 0x115BF, 0x1163F, 0x116B6, 0x1172B, 0x11839, 0x119E0, 0x11A34, 0x11A47, 0x11A99, 0x11C3F, 0x11D45, 0x11D97, 0x11F41, 0x11F42
]

/-- Indic conjunct break consonant ranges, from `INCB_CONSONANTS` in utflite.c. -/
def INCB_CONSONANTS : List (Nat × Nat) := [
  (0x0915, 0x0939), (0x0958, 0x095F), (0x0978, 0x097F), (0x0995, 0x09A8),
  (0x09AA, 0x09B0), (0x09B2, 0x09B2), (0x09B6, 0x09B9), (0x09DC, 0x09DD),
  (0x09DF, 0x09E1), (0x09F0, 0x09F1), (0x0A15, 0x0A28), (0x0A2A, 0x0A30),
  (0x0A32, 0x0A33), (0x0A35, 0x0A36), (0x0A38, 0x0A39), (0x0A59, 0x0A5C),
  (0x0A5E, 0x0A5E), (0x0A72, 0x0A74), (0x0A95, 0x0AA8), (0x0AAA, 0x0AB0),
  (0x0AB2, 0x0AB3), (0x0AB5, 0x0AB9), (0x0AE0, 0x0AE1), (0x0B15, 0x0B28),
  (0x0B2A, 0x0B30), (0x0B32, 0x0B33), (0x0B35, 0x0B39), (0x0B5C, 0x0B5D),
  (0x0B5F, 0x0B61), (0x0B71, 0x0B71), (0x0B95, 0x0B95), (0x0B99, 0x0B9A),
  (0x0B9C, 0x0B9C), (0x0B9E, 0x0B9F), (0x0BA3, 0x0BA4), (0x0BA8, 0x0BAA),
  (0x0BAE, 0x0BB9), (0x0C15, 0x0C28), (0x0C2A, 0x0C39), (0x0C58, 0x0C5A),
  (0x0C5D, 0x0C5D), (0x0C60, 0x0C61), (0x0C95, 0x0CA8), (0x0CAA, 0x0CB3),
  (0x0CB5, 0x0CB9), (0x0CDD, 0x0CDE), (0x0CE0, 0x0CE1), (0x0D15, 0x0D3A),
  (0x0D54, 0x0D56), (0x0D5F, 0x0D61), (0x0D7A, 0x0D7F), (0x1000, 0x1025),
  (0x1027, 0x1027), (0x1029, 0x102A), (0x1050, 0x1055), (0x105A, 0x105D),
  (0x1061, 0x1061), (0x1065, 0x1066), (0x106E, 0x1070), (0x1075, 0x1081),
  (0x108E, 0x108E), (0x1703, 0x170C), (0x170E, 0x1711), (0x1780, 0x17A2),
  (0x17A5, 0x17A7), (0x17A9, 0x17B3), (0x1901, 0x1922), (0x1930, 0x1931),
  (0x1950, 0x196D), (0x1980, 0x19A9), (0x19C1, 0x19C7), (0x1A00, 0x1A16),
  (0x1A20, 0x1A4C), (0x1B05, 0x1B33), (0x1B83, 0x1BA0), (0xA807, 0xA80A),
  (0xA80C, 0xA822), (0xA882, 0xA8B3), (0xA90A, 0xA925), (0xA930, 0xA946),
  (0xA989, 0xA98B), (0xA98D, 0xA9B2), (0xAA00, 0xAA28), (0xAA60, 0xAA6F),
  (0xAA71, 0xAA76), (0xAAE0, 0xAAEA), (0x10A00, 0x10A00), (0x10A10, 0x10A13),
  (0x10A15, 0x10A17), (0x10A19, 0x10A35), (0x11005, 0x11037), (0x11071, 0x11072),
  (0x11075, 0x11075), (0x11083, 0x110AF), (0x11107, 0x1112B), (0x11150, 0x11172),
  (0x11183, 0x111B2), (0x111C1, 0x111C4), (0x11200, 0x11211), (0x11213, 0x1122B),
  (0x1123F, 0x11240), (0x11284, 0x11286), (0x11288, 0x11288), (0x1128A, 0x1128D),
  (0x1128F, 0x1129D), (0x1129F, 0x112A8), (0x11305, 0x1130C), (0x1130F, 0x11310),
  (0x11313, 0x11328), (0x1132A, 0x11330), (0x11332, 0x11333), (0x11335, 0x11339),
  (0x1135D, 0x11361), (0x11400, 0x11434), (0x11447, 0x1144A), (0x11481, 0x114AF),
  (0x114C4, 0x114C5), (0x114C7, 0x114C7), (0x11580, 0x115AE), (0x115D8, 0x115DB),
  (0x11600, 0x1162F), (0x11644, 0x11644), (0x11680, 0x116AA), (0x116B8, 0x116B8),
  (0x11700, 0x1171A), (0x11800, 0x1182B), (0x11912, 0x11935), (0x11937, 0x11938),
  (0x119A0, 0x119A7), (0x119AA, 0x119D0), (0x11A0B, 0x11A32), (0x11A5C, 0x11A89),
  (0x11C00, 0x11C08), (0x11C0A, 0x11C2E), (0x11C72, 0x11C8F), (0x11D00, 0x11D06),
  (0x11D08, 0x11D09), (0x11D0B, 0x11D30), (0x11D60, 0x11D65), (0x11D67, 0x11D68),
  (0x11D6A, 0x11D89), (0x11EE0, 0x11EF2), (0x11F02, 0x11F02), (0x11F04, 0x11F10),
  (0x11F12, 0x11F33)
]

/-- Replacement character returned on decode errors (`UTFLITE_REPLACEMENT_CHAR`). -/
def UTFLITE_REPLACEMENT_CHAR : Nat := 0xFFFD

/-- Maximum codepoints to scan backward for a grapheme boundary
(`GRAPHEME_MAX_BACKTRACK` in utflite.c). -/
def GRAPHEME_MAX_BACKTRACK : Nat := 128

/-- Loop body of `unicode_range_contains` (binary search over sorted ranges);
`low`/`high` are the C `int` search bounds, `fuel` dominates the iteration count. -/
def urcGo (cp : Nat) (ranges : List (Nat × Nat)) : Nat → Int → Int → Bool
  | 0, _, _ => false
  | fuel + 1, low, high =>
    if low ≤ high then
      if cp < (ranges.getD ((low + high) / 2).toNat (0, 0)).1 then
        urcGo cp ranges fuel low ((low + high) / 2 - 1)
      else if (ranges.getD ((low + high) / 2).toNat (0, 0)).2 < cp then
        urcGo cp ranges fuel ((low + high) / 2 + 1) high
      else true
    else false

/-- Binary search over a table of sorted, non-overlapping codepoint ranges,
from `unicode_range_contains` in utflite.c. -/
def unicode_range_contains (cp : Nat) (ranges : List (Nat × Nat)) : Bool :=
  urcGo cp ranges (ranges.length + 1) 0 ((ranges.length : Int) - 1)

/-- Loop body of the binary search in `get_gcb`. -/
def gcbGo (cp : Nat) : Nat → Int → Int → GcbProp
  | 0, _, _ => .other
  | fuel + 1, low, high =>
    if low ≤ high then
      if cp < (GCB_RANGES.getD ((low + high) / 2).toNat (0, 0, .other)).1 then
        gcbGo cp fuel low ((low + high) / 2 - 1)
      else if (GCB_RANGES.getD ((low + high) / 2).toNat (0, 0, .other)).2.1 < cp then
        gcbGo cp fuel ((low + high) / 2 + 1) high
      else (GCB_RANGES.getD ((low + high) / 2).toNat (0, 0, .other)).2.2
    else .other

/-- Grapheme cluster break property of a codepoint, from `get_gcb` in utflite.c.
Hangul syllables are classified algorithmically, the rest by binary search. -/
def get_gcb (cp : Nat) : GcbProp :=
  if 0xAC00 ≤ cp ∧ cp ≤ 0xD7A3 then
    if (cp - 0xAC00) % 28 = 0 then .lv else .lvt
  else gcbGo cp (GCB_RANGES.length + 1) 0 ((GCB_RANGES.length : Int) - 1)

/-- Extended_Pictographic check, from `is_extended_pictographic` in utflite.c
(delegates to the double-width table). -/
def is_extended_pictographic (cp : Nat) : Bool :=
  unicode_range_contains cp DOUBLE_WIDTH_RANGES

/-- Loop body of the binary search in `is_incb_linker`. -/
def linkGo (cp : Nat) : Nat → Int → Int → Bool
  | 0, _, _ => false
  | fuel + 1, low, high =>
    if low ≤ high then
      if cp < INCB_LINKERS.getD ((low + high) / 2).toNat 0 then
        linkGo cp fuel low ((low + high) / 2 - 1)
      else if INCB_LINKERS.getD ((low + high) / 2).toNat 0 < cp then
        linkGo cp fuel ((low + high) / 2 + 1) high
      else true
    else false

/-- InCB linker check, from `is_incb_linker` in utflite.c. -/
def is_incb_linker (cp : Nat) : Bool :=
  linkGo cp (INCB_LINKERS.length + 1) 0 ((INCB_LINKERS.length : Int) - 1)

/-- InCB consonant check, from `is_incb_consonant` in utflite.c. -/
def is_incb_consonant (cp : Nat) : Bool :=
  unicode_range_contains cp INCB_CONSONANTS

/-- Grapheme cluster break decision, from `is_grapheme_break` in utflite.c
(UAX #29 rules GB3-GB13, GB999 in priority order). Returns `true` when there
is a break between the previous and current codepoint. -/
def is_grapheme_break (prev_prop curr_prop : GcbProp) (ri_count : Nat)
    (in_ext_pict : Bool) (curr_cp : Nat) (incb_state : Nat) : Bool :=
  if prev_prop = .cr ∧ curr_prop = .lf then false
  else if prev_prop = .control ∨ prev_prop = .cr ∨ prev_prop = .lf then true
  else if curr_prop = .control ∨ curr_prop = .cr ∨ curr_prop = .lf then true
  else if prev_prop = .l ∧ (curr_prop = .l ∨ curr_prop = .v ∨
      curr_prop = .lv ∨ curr_prop = .lvt) then false
  else if (prev_prop = .lv ∨ prev_prop = .v) ∧ (curr_prop = .v ∨ curr_prop = .t) then false
  else if (prev_prop = .lvt ∨ prev_prop = .t) ∧ curr_prop = .t then false
  else if curr_prop = .extend ∨ curr_prop = .zwj then false
  else if curr_prop = .spacingMark then false
  else if prev_prop = .prepend then false
  else if incb_state = 2 ∧ is_incb_consonant curr_cp then false
  else if in_ext_pict ∧ prev_prop = .zwj ∧ is_extended_pictographic curr_cp then false
  else if prev_prop = .regionalIndicator ∧ curr_prop = .regionalIndicator then
    decide (ri_count % 2 = 0)
  else true

/-- Continuation-byte accumulation loop of `utflite_decode`: consumes the listed
continuation bytes, failing on the first byte that does not match `10xxxxxx`. -/
def readCont : List Nat → Nat → Option Nat
  | [], cp => some cp
  | b :: rest, cp =>
    if b &&& 0xC0 ≠ 0x80 then none
    else readCont rest ((cp <<< 6) ||| (b &&& 0x3F))

/-- Lead-byte classification in `utflite_decode`: declared sequence length and
the initial codepoint bits, or `none` for an invalid lead byte. -/
def leadInfo (first : Nat) : Option (Nat × Nat) :=
  if first &&& 0xE0 = 0xC0 then some (2, first &&& 0x1F)
  else if first &&& 0xF0 = 0xE0 then some (3, first &&& 0x0F)
  else if first &&& 0xF8 = 0xF0 then some (4, first &&& 0x07)
  else none

/-- UTF-8 decoder, from `utflite_decode` in utflite.c: returns
`(codepoint, bytes_consumed)` for the readable byte region `bytes`. -/
def utflite_decode (bytes : List Nat) : Nat × Nat :=
  match bytes with
  | [] => (UTFLITE_REPLACEMENT_CHAR, 1)
  | first :: rest =>
    if first < 0x80 then (first, 1)
    else
      match leadInfo first with
      | none => (UTFLITE_REPLACEMENT_CHAR, 1)
      | some (sl, cp0) =>
        if rest.length + 1 < sl then (UTFLITE_REPLACEMENT_CHAR, 1)
        else
          match readCont (rest.take (sl - 1)) cp0 with
          | none => (UTFLITE_REPLACEMENT_CHAR, 1)
          | some cp =>
            if (sl = 2 ∧ cp < 0x80) ∨ (sl = 3 ∧ cp < 0x800) ∨
                (sl = 4 ∧ cp < 0x10000) then
              (UTFLITE_REPLACEMENT_CHAR, sl)
            else if 0xD800 ≤ cp ∧ cp ≤ 0xDFFF then (UTFLITE_REPLACEMENT_CHAR, sl)
            else if 0x10FFFF < cp then (UTFLITE_REPLACEMENT_CHAR, sl)
            else (cp, sl)

/-- UTF-8 encoder, from `utflite_encode` in utflite.c: returns the number of
bytes written and the updated caller buffer. On failure it returns `0` and
leaves the buffer untouched. -/
def utflite_encode (codepoint : Nat) (buffer : List Nat) : Nat × List Nat :=
  if codepoint < 0x80 then
    (1, buffer.set 0 codepoint)
  else if codepoint < 0x800 then
    (2, (buffer.set 0 (0xC0 ||| (codepoint >>> 6))).set 1 (0x80 ||| (codepoint &&& 0x3F)))
  else if codepoint < 0x10000 then
    if 0xD800 ≤ codepoint ∧ codepoint ≤ 0xDFFF then (0, buffer)
    else
      (3, ((buffer.set 0 (0xE0 ||| (codepoint >>> 12))).set 1
            (0x80 ||| ((codepoint >>> 6) &&& 0x3F))).set 2 (0x80 ||| (codepoint &&& 0x3F)))
  else if codepoint ≤ 0x10FFFF then
    (4, (((buffer.set 0 (0xF0 ||| (codepoint >>> 18))).set 1
          (0x80 ||| ((codepoint >>> 12) &&& 0x3F))).set 2
          (0x80 ||| ((codepoint >>> 6) &&& 0x3F))).set 3 (0x80 ||| (codepoint &&& 0x3F)))
  else (0, buffer)

/-- The readable byte region `(text + offset, length - offset)` that the C
code passes to `utflite_decode`. -/
def region (text : List Nat) (length offset : Nat) : List Nat :=
  (text.drop offset).take (length - offset)

/-- Terminal display width of a codepoint, from `utflite_codepoint_width`. -/
def utflite_codepoint_width (codepoint : Nat) : Int :=
  if codepoint < 0x20 then (if codepoint = 0 then 0 else -1)
  else if codepoint < 0x7F then 1
  else if codepoint = 0x7F then -1
  else if codepoint < 0xA0 then -1
  else if codepoint = 0xAD then 1
  else if unicode_range_contains codepoint ZERO_WIDTH_RANGES then 0
  else if unicode_range_contains codepoint DOUBLE_WIDTH_RANGES then 2
  else 1

/-- Width of the character starting at `offset`, from `utflite_char_width`. -/
def utflite_char_width (text : List Nat) (length offset : Nat) : Int :=
  if length ≤ offset then 0
  else utflite_codepoint_width (utflite_decode (region text length offset)).1

/-- Offset of the next character, from `utflite_next_char`. -/
def utflite_next_char (text : List Nat) (length offset : Nat) : Nat :=
  if length ≤ offset then length
  else if length < offset + (utflite_decode (region text length offset)).2 then length
  else offset + (utflite_decode (region text length offset)).2

/-- Backward continuation-byte scan of `utflite_prev_char`; stops at `limit`
or at the first non-continuation byte. `fuel` dominates the iteration count. -/
def scanBack (text : List Nat) (limit : Nat) : Nat → Nat → Nat
  | 0, pos => pos
  | fuel + 1, pos =>
    if limit < pos ∧ (text.getD pos 0) &&& 0xC0 = 0x80 then scanBack text limit fuel (pos - 1)
    else pos

/-- Body of `utflite_prev_char` for a positive offset (all arithmetic is on
non-negative values there, so it is stated on `Nat`). -/
def prev_char_core (text : List Nat) (offset : Nat) : Nat :=
  if offset = 0 then 0
  else scanBack text (offset - 4) offset (offset - 1)

/-- Offset of the previous character, from `utflite_prev_char` in utflite.c;
the C `int` offset is modelled as `Int` to capture the `offset <= 0` guard. -/
def utflite_prev_char (text : List Nat) (offset : Int) : Int :=
  if offset ≤ 0 then 0 else (prev_char_core text offset.toNat : Nat)

/-- Forward scan loop of `utflite_next_grapheme`: carries the previous
codepoint's GCB property, the regional-indicator run count, the
Extended_Pictographic run flag and the InCB state across iterations. -/
def nextGraphemeGo (text : List Nat) (length : Nat) :
    Nat → GcbProp → Nat → Bool → Nat → Nat → Nat
  | 0, _, _, _, _, _ => length
  | fuel + 1, prev_prop, ri_count, in_ext_pict, incb_state, next_offset =>
    if next_offset < length then
      let d := utflite_decode (region text length next_offset)
      let curr_cp := d.1
      let curr_prop := get_gcb curr_cp
      if is_grapheme_break prev_prop curr_prop ri_count in_ext_pict curr_cp incb_state then
        next_offset
      else
        let ri' := if curr_prop = .regionalIndicator then ri_count + 1
          else if curr_prop ≠ .extend ∧ curr_prop ≠ .zwj then 0
          else ri_count
        let ext' := if is_extended_pictographic curr_cp then true
          else if curr_prop ≠ .extend ∧ curr_prop ≠ .zwj then false
          else in_ext_pict
        let incb' := if is_incb_consonant curr_cp then 1
          else if is_incb_linker curr_cp ∧ 1 ≤ incb_state then 2
          else if curr_prop ≠ .extend ∧ curr_prop ≠ .zwj then 0
          else incb_state
        nextGraphemeGo text length fuel curr_prop ri' ext' incb' (next_offset + d.2)
    else length

/-- Offset of the next grapheme cluster boundary, from `utflite_next_grapheme`. -/
def utflite_next_grapheme (text : List Nat) (length offset : Nat) : Nat :=
  if length ≤ offset then length
  else
    let d := utflite_decode (region text length offset)
    let next_offset := offset + d.2
    if length ≤ next_offset then length
    else
      let prev_prop := get_gcb d.1
      nextGraphemeGo text length (length - next_offset) prev_prop
        (if prev_prop = .regionalIndicator then 1 else 0)
        (is_extended_pictographic d.1)
        (if is_incb_consonant d.1 then 1 else 0)
        next_offset

/-- Rewind loop of `utflite_prev_grapheme`: steps back by `prev_char` up to
`GRAPHEME_MAX_BACKTRACK` times or until the buffer start. -/
def rewindGo (text : List Nat) : Nat → Nat → Nat
  | 0, scan_start => scan_start
  | remaining + 1, scan_start =>
    if 0 < scan_start then
      if prev_char_core text scan_start = scan_start then scan_start
      else rewindGo text remaining (prev_char_core text scan_start)
    else scan_start

/-- Forward rescan loop of `utflite_prev_grapheme`: repeatedly takes
`next_grapheme` boundaries (scan length bounded at `offset`) and keeps the
last one strictly before `offset`. -/
def forwardScanGo (text : List Nat) (offset : Nat) : Nat → Nat → Nat → Nat
  | 0, _, grapheme_start => grapheme_start
  | fuel + 1, curr, grapheme_start =>
    if curr < offset then
      if offset ≤ utflite_next_grapheme text offset curr then grapheme_start
      else forwardScanGo text offset fuel (utflite_next_grapheme text offset curr)
        (utflite_next_grapheme text offset curr)
    else grapheme_start

/-- Body of `utflite_prev_grapheme` for a positive offset. -/
def prev_grapheme_core (text : List Nat) (offset : Nat) : Nat :=
  if offset = 0 then 0
  else if prev_char_core text offset = 0 then 0
  else forwardScanGo text offset (offset + 1)
    (rewindGo text GRAPHEME_MAX_BACKTRACK (prev_char_core text offset))
    (rewindGo text GRAPHEME_MAX_BACKTRACK (prev_char_core text offset))

/-- Offset of the previous grapheme cluster boundary, from
`utflite_prev_grapheme` in utflite.c. -/
def utflite_prev_grapheme (text : List Nat) (offset : Int) : Int :=
  if offset ≤ 0 then 0 else (prev_grapheme_core text offset.toNat : Nat)

/-- Validation loop of `utflite_validate`: returns `some offset` for the first
offset at which decode produced the replacement codepoint without the literal
bytes EF BF BD being present, and `none` when the buffer is valid. -/
def validateGo (text : List Nat) : Nat → Nat → Option Nat
  | 0, _ => none
  | fuel + 1, offset =>
    if offset < text.length then
      let d := utflite_decode (region text text.length offset)
      if d.1 = UTFLITE_REPLACEMENT_CHAR ∧
          (text.getD offset 0 ≠ 0xEF ∨ text.length - offset < 3 ∨
           text.getD (offset + 1) 0 ≠ 0xBF ∨ text.getD (offset + 2) 0 ≠ 0xBD) then
        some offset
      else validateGo text fuel (offset + d.2)
    else none

/-- UTF-8 validation, from `utflite_validate` in utflite.c; `none` models the
C return value 1 (valid), `some e` models return value 0 with `*error_offset = e`. -/
def utflite_validate (text : List Nat) : Option Nat :=
  validateGo text (text.length + 1) 0

/-- Accumulation loop of `utflite_string_width`. -/
def stringWidthGo (text : List Nat) (length : Nat) : Nat → Int → Nat → Int
  | 0, width, _ => width
  | fuel + 1, width, offset =>
    if offset < length then
      let cw := utflite_char_width text length offset
      stringWidthGo text length fuel (if 0 < cw then width + cw else width)
        (utflite_next_char text length offset)
    else width

/-- Total display width of a buffer, from `utflite_string_width` in utflite.c. -/
def utflite_string_width (text : List Nat) (length : Nat) : Int :=
  stringWidthGo text length (length + 1) 0 0

/-- Accumulation loop of `utflite_truncate`. -/
def truncateGo (text : List Nat) (length : Nat) (max_cols : Int) : Nat → Int → Nat → Nat
  | 0, _, offset => offset
  | fuel + 1, width, offset =>
    if offset < length then
      let cw := utflite_char_width text length offset
      if 0 < cw then
        if max_cols < width + cw then offset
        else truncateGo text length max_cols fuel (width + cw)
          (utflite_next_char text length offset)
      else truncateGo text length max_cols fuel width (utflite_next_char text length offset)
    else length

/-- Width-bounded truncation, from `utflite_truncate` in utflite.c. -/
def utflite_truncate (text : List Nat) (length : Nat) (max_cols : Int) : Nat :=
  truncateGo text length max_cols (length + 1) 0 0

/-!
Claim C1: the grapheme-boundary decision function versus the spec's ordered
rule list. `is_break_spec` below is transcribed from the spec's wording
(first match wins, default break), to be compared with `is_grapheme_break`.
-/

/-- First-match evaluation of an ordered list of (applicability, verdict)
rules: the verdict of the first applicable rule, `true` (break) if none applies. -/
def firstVerdict : List (Bool × Bool) → Bool
  | [] => true
  | (applies, verdict) :: rest => if applies then verdict else firstVerdict rest

/-- The spec's ordered rule list for the boundary decision (spec §4.3),
transcribed rule for rule. -/
def is_break_spec (prev_prop curr_prop : GcbProp) (ri_count : Nat)
    (in_ext_pict : Bool) (curr_cp : Nat) (incb_state : Nat) : Bool :=
  firstVerdict [
    (prev_prop == .cr && curr_prop == .lf, false),
    (prev_prop == .control || prev_prop == .cr || prev_prop == .lf, true),
    (curr_prop == .control || curr_prop == .cr || curr_prop == .lf, true),
    (prev_prop == .l &&
      (curr_prop == .l || curr_prop == .v || curr_prop == .lv || curr_prop == .lvt), false),
    ((prev_prop == .lv || prev_prop == .v) && (curr_prop == .v || curr_prop == .t), false),
    ((prev_prop == .lvt || prev_prop == .t) && curr_prop == .t, false),
    (curr_prop == .extend || curr_prop == .zwj, false),
    (curr_prop == .spacingMark, false),
    (prev_prop == .prepend, false),
    (incb_state == 2 && is_incb_consonant curr_cp, false),
    (in_ext_pict && prev_prop == .zwj && is_extended_pictographic curr_cp, false),
    (prev_prop == .regionalIndicator && curr_prop == .regionalIndicator,
      decide (ri_count % 2 = 0))]

/-!
Specification-side definitions and proof auxiliary definitions used by the
claim theorems below.
-/

/-- Declared sequence length of a lead byte (2, 3 or 4 for the lead-byte
patterns 110xxxxx, 1110xxxx, 11110xxx; `none` for an invalid lead byte). -/
def declared_length (first : Nat) : Option Nat :=
  if first &&& 0xE0 = 0xC0 then some 2
  else if first &&& 0xF0 = 0xE0 then some 3
  else if first &&& 0xF8 = 0xF0 then some 4
  else none

/-- Payload bits contributed by the lead byte. -/
def lead_bits (first : Nat) : Nat :=
  if first &&& 0xE0 = 0xC0 then first &&& 0x1F
  else if first &&& 0xF0 = 0xE0 then first &&& 0x0F
  else first &&& 0x07

/-- Value obtained by accumulating all payload bits of a sequence. -/
def accumulate (first : Nat) (conts : List Nat) : Nat :=
  conts.foldl (fun cp b => (cp <<< 6) ||| (b &&& 0x3F)) (lead_bits first)

/-- Structural decode error per the claim: empty input, invalid lead byte,
truncated sequence, or a continuation byte not matching 10xxxxxx. -/
def structural_decode_error (bytes : List Nat) : Bool :=
  match bytes with
  | [] => true
  | first :: rest =>
    if first < 0x80 then false
    else
      match declared_length first with
      | none => true
      | some s =>
        decide (rest.length + 1 < s) ||
          (rest.take (s - 1)).any (fun b => !(b &&& 0xC0 == 0x80))

/-- Semantic decode error per the claim: a structurally well-formed sequence
whose accumulated value is overlong, a surrogate, or above 0x10FFFF. Returns
the declared sequence length on error. -/
def semantic_decode_error (bytes : List Nat) : Option Nat :=
  match bytes with
  | [] => none
  | first :: rest =>
    if first < 0x80 then none
    else
      match declared_length first with
      | none => none
      | some s =>
        if rest.length + 1 < s ∨ (rest.take (s - 1)).any (fun b => !(b &&& 0xC0 == 0x80)) then
          none
        else
          if (s = 2 ∧ accumulate first (rest.take (s - 1)) < 0x80) ∨
              (s = 3 ∧ accumulate first (rest.take (s - 1)) < 0x800) ∨
              (s = 4 ∧ accumulate first (rest.take (s - 1)) < 0x10000) ∨
              (0xD800 ≤ accumulate first (rest.take (s - 1)) ∧
                accumulate first (rest.take (s - 1)) ≤ 0xDFFF) ∨
              0x10FFFF < accumulate first (rest.take (s - 1)) then
            some s
          else none

/-- Direct membership test: the codepoint lies in some range of the table. -/
def in_table (cp : Nat) (ranges : List (Nat × Nat)) : Bool :=
  ranges.any (fun r => decide (r.1 ≤ cp) && decide (cp ≤ r.2))

/-- The table invariant of spec §3: every range is valid and ranges are
sorted ascending and pairwise non-overlapping. -/
def sorted_ranges : List (Nat × Nat) → Bool
  | [] => true
  | [r] => decide (r.1 ≤ r.2)
  | r :: r' :: rest =>
    decide (r.1 ≤ r.2) && decide (r.2 < r'.1) && sorted_ranges (r' :: rest)

/-- Non-printable controls per the claim: codepoints below 0x20 except NUL,
0x7F, and 0x80 to 0x9F. -/
def nonprintable_control (cp : Nat) : Bool :=
  (decide (cp < 0x20) && !(cp == 0)) || cp == 0x7F ||
    (decide (0x80 ≤ cp) && decide (cp ≤ 0x9F))

/-- The claim's width classification, in the claim's order: the soft-hyphen
exception, then -1 for non-printable controls, 0 for NUL and zero-width-table
members, 2 for double-width-table members, and 1 otherwise. -/
def codepoint_width_spec (cp : Nat) : Int :=
  if cp = 0xAD then 1
  else if nonprintable_control cp then -1
  else if cp = 0 ∨ in_table cp ZERO_WIDTH_RANGES then 0
  else if in_table cp DOUBLE_WIDTH_RANGES then 2
  else 1

/-- One decode step of the validation walk: advance by the bytes consumed at
`o` (the C loop's `offset += bytes`). -/
def decode_step (text : List Nat) (o : Nat) : Nat :=
  o + (utflite_decode (region text text.length o)).2

/-- Offsets reached from `start` by iterating decode steps. -/
def ReachedFrom (text : List Nat) (start o : Nat) : Prop :=
  ∃ n, (decode_step text)^[n] start = o

/-- An acceptable validation step per the claim: decode at `o` produces
something other than the replacement codepoint, or the three bytes at `o`
are literally 0xEF 0xBF 0xBD. -/
def GoodStep (text : List Nat) (o : Nat) : Prop :=
  (utflite_decode (region text text.length o)).1 ≠ 0xFFFD ∨
    (text.getD o 0 = 0xEF ∧ 3 ≤ text.length - o ∧
      text.getD (o + 1) 0 = 0xBF ∧ text.getD (o + 2) 0 = 0xBD)

/-- Offsets reachable from `a` by `next_grapheme` boundary steps that stay
strictly below `offset` (the boundaries enumerated by the rescan). -/
inductive NGReach (text : List Nat) (offset : Nat) : Nat → Nat → Prop
  | refl (a : Nat) : NGReach text offset a a
  | step {a b : Nat} (hab : NGReach text offset a b)
      (hb : utflite_next_grapheme text offset b < offset) :
      NGReach text offset a (utflite_next_grapheme text offset b)

/-- A buffer holding 130 copies of U+0300 (each encoded as 0xCC 0x80), i.e.
more combining marks than the 128-codepoint rewind bound covers. -/
def c9_text : List Nat := (List.replicate 130 [0xCC, 0x80]).flatten

/-- Offset after `n` `next_char` steps from 0 (the character boundaries). -/
def walkOffset (text : List Nat) (length : Nat) : Nat → Nat
  | 0 => 0
  | n + 1 => utflite_next_char text length (walkOffset text length n)

/-- Total positive display width of the first `n` characters of the walk. -/
def walkWidth (text : List Nat) (length : Nat) : Nat → Int
  | 0 => 0
  | n + 1 => walkWidth text length n +
      (if 0 < utflite_char_width text length (walkOffset text length n) then
        utflite_char_width text length (walkOffset text length n) else 0)

/-- C1: for every combination of inputs, `is_grapheme_break` returns the
verdict of the first matching rule of the spec's ordered list (GB3, GB4, GB5,
GB6, GB7, GB8, GB9, GB9a, GB9b, GB9c, GB11, GB12/GB13, GB999). -/
theorem is_grapheme_break_eq_spec :
    ∀ prev_prop curr_prop ri_count in_ext_pict curr_cp incb_state,
      is_grapheme_break prev_prop curr_prop ri_count in_ext_pict curr_cp incb_state =
        is_break_spec prev_prop curr_prop ri_count in_ext_pict curr_cp incb_state := by
  intro p c ri ext cp incb
  cases p <;> cases c <;>
    simp [is_grapheme_break, is_break_spec, firstVerdict]

/-!
Claim C4: encode failure behaviour.
-/

/-- C4: `utflite_encode` returns 0 exactly when the codepoint is invalid
(surrogate range or above 0x10FFFF); on failure the caller's buffer is left
unchanged; for every valid codepoint it returns a count between 1 and 4. -/
theorem encode_failure_spec :
    ∀ codepoint buffer,
      ((utflite_encode codepoint buffer).1 = 0 ↔
        (0xD800 ≤ codepoint ∧ codepoint ≤ 0xDFFF) ∨ 0x10FFFF < codepoint) ∧
      ((utflite_encode codepoint buffer).1 = 0 →
        (utflite_encode codepoint buffer).2 = buffer) ∧
      (¬((0xD800 ≤ codepoint ∧ codepoint ≤ 0xDFFF) ∨ 0x10FFFF < codepoint) →
        1 ≤ (utflite_encode codepoint buffer).1 ∧ (utflite_encode codepoint buffer).1 ≤ 4) := by
  intro cp buf
  unfold utflite_encode
  split_ifs with h1 h2 h3 h4 h5 <;> simp <;> omega

/-- Witness for C4 at the concrete inputs 0xD800 (invalid) and 0x41 (valid). -/
theorem encode_failure_spec_witness :
    (utflite_encode 0xD800 [7, 8, 9, 10]).2 = [7, 8, 9, 10] ∧
      1 ≤ (utflite_encode 0x41 [0, 0, 0, 0]).1 ∧ (utflite_encode 0x41 [0, 0, 0, 0]).1 ≤ 4 :=
  ⟨(encode_failure_spec 0xD800 [7, 8, 9, 10]).2.1 (by decide),
   (encode_failure_spec 0x41 [0, 0, 0, 0]).2.2 (by decide)⟩

/-!
Claim C7: decode consumption bounds and forward progress of `next_char`.
-/

/-- Bytes consumed by decode are always between 1 and 4. -/
theorem decode_consumed_bounds (bytes : List Nat) :
    1 ≤ (utflite_decode bytes).2 ∧ (utflite_decode bytes).2 ≤ 4 := by
  unfold utflite_decode
  cases bytes with
  | nil => simp
  | cons first rest =>
    simp only []
    split_ifs with h
    · simp
    · cases hl : leadInfo first with
      | none => simp
      | some p =>
        obtain ⟨sl, cp0⟩ := p
        have hsl : sl = 2 ∨ sl = 3 ∨ sl = 4 := by
          unfold leadInfo at hl
          split_ifs at hl <;> simp_all
        simp only []
        split_ifs with h2
        · simp
        · cases hc : readCont (rest.take (sl - 1)) cp0 with
          | none => simp
          | some cp => simp only []; split_ifs <;> simp <;> omega

/-- C7: decode always consumes between 1 and 4 bytes; consequently
`next_char` strictly advances below `length`, is the identity at or past
`length`, and iterating it from 0 reaches `length` in at most `length` steps. -/
theorem decode_progress_spec :
    (∀ bytes, 1 ≤ (utflite_decode bytes).2 ∧ (utflite_decode bytes).2 ≤ 4) ∧
    (∀ text length offset,
      (offset < length →
        offset < utflite_next_char text length offset ∧
        utflite_next_char text length offset ≤ length) ∧
      (length ≤ offset → utflite_next_char text length offset = length)) ∧
    (∀ text length, (fun o => utflite_next_char text length o)^[length] 0 = length) := by
  refine ⟨decode_consumed_bounds, fun text length offset => ?_, fun text length => ?_⟩
  · constructor
    · intro h
      have hc := (decode_consumed_bounds (region text length offset)).1
      unfold utflite_next_char
      split_ifs with h1 h2 <;> omega
    · intro h
      unfold utflite_next_char
      rw [if_pos h]
  · have step : ∀ o, o ≤ length → o < utflite_next_char text length o ∨
        (o = length ∧ utflite_next_char text length o = length) := by
      intro o ho
      rcases Nat.lt_or_ge o length with h | h
      · left
        have hc := (decode_consumed_bounds (region text length o)).1
        unfold utflite_next_char
        split_ifs <;> omega
      · right
        have : o = length := le_antisymm ho h
        subst this
        exact ⟨rfl, by unfold utflite_next_char; rw [if_pos le_rfl]⟩
    have le_len : ∀ o, o ≤ length → utflite_next_char text length o ≤ length := by
      intro o ho
      unfold utflite_next_char
      split_ifs <;> omega
    have main : ∀ k o, o ≤ length → length ≤ o + k →
        (fun o => utflite_next_char text length o)^[k] o = length := by
      intro k
      induction k with
      | zero => intro o h1 h2; simpa using le_antisymm h1 h2
      | succ n ih =>
        intro o h1 h2
        rw [Function.iterate_succ_apply]
        rcases step o h1 with h | ⟨rfl, hfix⟩
        · exact ih _ (le_len o h1) (by omega)
        · rw [hfix]
          exact ih _ le_rfl (by omega)
    exact main length 0 (Nat.zero_le _) (by omega)

/-- Witness for C7 at a concrete buffer and offsets. -/
theorem decode_progress_spec_witness :
    (0 < utflite_next_char [0x41, 0xC3, 0xA9] 3 0 ∧ utflite_next_char [0x41, 0xC3, 0xA9] 3 0 ≤ 3) ∧
      utflite_next_char [0x41, 0xC3, 0xA9] 3 5 = 3 :=
  ⟨(decode_progress_spec.2.1 [0x41, 0xC3, 0xA9] 3 0).1 (by decide),
   (decode_progress_spec.2.1 [0x41, 0xC3, 0xA9] 3 5).2 (by decide)⟩

/-!
Claim C2: the two decode error classes. The predicates below transcribe the
claim's error taxonomy; the theorem checks decode against them.
-/

/-- The continuation loop fails exactly when some listed byte is not a
continuation byte. -/
theorem readCont_eq_none_iff (l : List Nat) (cp : Nat) :
    readCont l cp = none ↔ l.any (fun b => !(b &&& 0xC0 == 0x80)) := by
  induction l generalizing cp with
  | nil => simp [readCont]
  | cons b rest ih =>
    by_cases hb : b &&& 0xC0 = 0x80
    · simp [readCont, hb, ih]
    · simp [readCont, hb]

/-- When every listed byte is a continuation byte, the continuation loop
returns the accumulated payload. -/
theorem readCont_eq_some (l : List Nat) (cp : Nat)
    (h : ∀ b ∈ l, b &&& 0xC0 = 0x80) :
    readCont l cp = some (l.foldl (fun cp b => (cp <<< 6) ||| (b &&& 0x3F)) cp) := by
  induction l generalizing cp with
  | nil => simp [readCont]
  | cons b rest ih =>
    have hb : b &&& 0xC0 = 0x80 := h b (List.mem_cons_self _ _)
    show (if b &&& 0xC0 ≠ 0x80 then none else readCont rest ((cp <<< 6) ||| (b &&& 0x3F))) = _
    rw [if_neg (by simp [hb]), List.foldl_cons]
    exact ih _ (fun x hx => h x (List.mem_cons_of_mem _ hx))

/-- The lead-byte classification of the code agrees with the claim's
declared-length and payload-bits functions. -/
theorem leadInfo_eq (first : Nat) :
    leadInfo first = (declared_length first).map (fun s => (s, lead_bits first)) := by
  unfold leadInfo declared_length lead_bits
  split_ifs <;> simp_all

/-- C2: a structural decode error yields the replacement codepoint with
exactly 1 byte consumed; a semantic decode error yields the replacement
codepoint with exactly the full declared sequence length (2, 3 or 4) consumed. -/
theorem decode_error_classes :
    ∀ bytes,
      (structural_decode_error bytes = true → utflite_decode bytes = (0xFFFD, 1)) ∧
      (∀ s, semantic_decode_error bytes = some s →
        utflite_decode bytes = (0xFFFD, s) ∧ (s = 2 ∨ s = 3 ∨ s = 4)) := by
  intro bytes
  cases bytes with
  | nil =>
    constructor
    · intro _; rfl
    · intro s hs; simp [semantic_decode_error] at hs
  | cons first rest =>
    by_cases hf : first < 0x80
    · constructor
      · intro h; simp [structural_decode_error, hf] at h
      · intro s hs; simp [semantic_decode_error, hf] at hs
    · cases hdl : declared_length first with
      | none =>
        have hli : leadInfo first = none := by rw [leadInfo_eq, hdl]; rfl
        constructor
        · intro _
          simp [utflite_decode, hf, hli, UTFLITE_REPLACEMENT_CHAR]
        · intro s hs
          simp [semantic_decode_error, hf, hdl] at hs
      | some s =>
        have hli : leadInfo first = some (s, lead_bits first) := by
          rw [leadInfo_eq, hdl]; rfl
        have hs234 : s = 2 ∨ s = 3 ∨ s = 4 := by
          unfold declared_length at hdl
          split_ifs at hdl <;> simp_all
        by_cases hlen : rest.length + 1 < s
        · constructor
          · intro _
            simp [utflite_decode, hf, hli, hlen, UTFLITE_REPLACEMENT_CHAR]
          · intro s' hs'
            simp [semantic_decode_error, hf, hdl, hlen] at hs'
        · by_cases hbad : (rest.take (s - 1)).any (fun b => !(b &&& 0xC0 == 0x80))
          · have hrc : readCont (rest.take (s - 1)) (lead_bits first) = none :=
              (readCont_eq_none_iff _ _).mpr hbad
            constructor
            · intro _
              simp [utflite_decode, hf, hli, hlen, hrc, UTFLITE_REPLACEMENT_CHAR]
            · intro s' hs'
              simp [semantic_decode_error, hf, hdl, hlen, hbad] at hs'
          · have hgood : ∀ b ∈ rest.take (s - 1), b &&& 0xC0 = 0x80 := by
              intro b hb
              by_contra hcon
              exact hbad (List.any_eq_true.mpr ⟨b, hb, by simpa using hcon⟩)
            have hrc := readCont_eq_some (rest.take (s - 1)) (lead_bits first) hgood
            have hstruct : structural_decode_error (first :: rest) = false := by
              simp [structural_decode_error, hf, hdl, hlen, hbad]
            constructor
            · intro h; rw [hstruct] at h; exact absurd h (by simp)
            · intro s' hs'
              set cp := accumulate first (rest.take (s - 1)) with hacc
              have hdec0 : utflite_decode (first :: rest) =
                  (if (s = 2 ∧ cp < 0x80) ∨ (s = 3 ∧ cp < 0x800) ∨ (s = 4 ∧ cp < 0x10000) then
                    (UTFLITE_REPLACEMENT_CHAR, s)
                  else if 0xD800 ≤ cp ∧ cp ≤ 0xDFFF then (UTFLITE_REPLACEMENT_CHAR, s)
                  else if 0x10FFFF < cp then (UTFLITE_REPLACEMENT_CHAR, s)
                  else (cp, s)) := by
                simp only [utflite_decode, if_neg hf, hli, if_neg hlen, hrc, ← hacc]
                rfl
              have hsem : semantic_decode_error (first :: rest) =
                  (if (s = 2 ∧ cp < 0x80) ∨ (s = 3 ∧ cp < 0x800) ∨ (s = 4 ∧ cp < 0x10000) ∨
                      (0xD800 ≤ cp ∧ cp ≤ 0xDFFF) ∨ 0x10FFFF < cp then
                    some s else none) := by
                simp only [semantic_decode_error, if_neg hf, hdl]
                rw [if_neg (not_or.mpr ⟨hlen, by simpa using hbad⟩)]
              rw [hsem] at hs'
              split_ifs at hs' with herr
              · have hss' : s' = s := by
                  injection hs' with h
                  omega
                rw [hss']
                refine ⟨?_, hs234⟩
                rw [hdec0]
                show _ = ((0xFFFD : Nat), s)
                rcases herr with h | h | h | h | h
                · rw [if_pos (Or.inl h)]; rfl
                · rw [if_pos (Or.inr (Or.inl h))]; rfl
                · rw [if_pos (Or.inr (Or.inr h))]; rfl
                · by_cases hov : (s = 2 ∧ cp < 0x80) ∨ (s = 3 ∧ cp < 0x800) ∨
                      (s = 4 ∧ cp < 0x10000)
                  · rw [if_pos hov]; rfl
                  · rw [if_neg hov, if_pos h]; rfl
                · by_cases hov : (s = 2 ∧ cp < 0x80) ∨ (s = 3 ∧ cp < 0x800) ∨
                      (s = 4 ∧ cp < 0x10000)
                  · rw [if_pos hov]; rfl
                  · rw [if_neg hov, if_neg (by omega), if_pos h]; rfl

/-- Witness for C2: a bare continuation byte (structural error, 1 byte
consumed) and an overlong NUL (semantic error, both bytes consumed). -/
theorem decode_error_classes_witness :
    utflite_decode [0x80] = (0xFFFD, 1) ∧
      (utflite_decode [0xC0, 0x80] = (0xFFFD, 2) ∧ (2 = 2 ∨ 2 = 3 ∨ 2 = 4)) :=
  ⟨(decode_error_classes [0x80]).1 (by decide),
   (decode_error_classes [0xC0, 0x80]).2 2 (by decide)⟩

/-!
Claim C3: encode/decode round trip for every valid codepoint.
-/

/-- Masking with 0x3F extracts the low six bits. -/
theorem and63_eq (x : Nat) : x &&& 63 = x % 64 := by
  simpa using Nat.and_pow_two_sub_one_eq_mod x 6

/-- Recombining a 6-bit chunk with the remaining high bits. -/
theorem shift_or_step (cp k : Nat) :
    ((cp >>> (k + 6)) <<< 6) ||| ((cp >>> k) &&& 63) = cp >>> k := by
  have h1 : cp >>> (k + 6) = (cp >>> k) / 64 := by
    rw [Nat.shiftRight_eq_div_pow, Nat.shiftRight_eq_div_pow, Nat.div_div_eq_div_mul]
    congr 1
    rw [Nat.pow_add]
  rw [h1, and63_eq, Nat.shiftLeft_eq]
  have hlt : (cp >>> k) % 64 < 2 ^ 6 := by
    have := Nat.mod_lt (cp >>> k) (show 0 < 64 by norm_num)
    simpa using this
  have hor := Nat.mul_add_lt_is_or hlt ((cp >>> k) / 64)
  calc (cp >>> k) / 64 * 2 ^ 6 ||| (cp >>> k) % 64
      = 2 ^ 6 * ((cp >>> k) / 64) ||| (cp >>> k) % 64 := by rw [Nat.mul_comm]
    _ = 2 ^ 6 * ((cp >>> k) / 64) + (cp >>> k) % 64 := hor.symm
    _ = cp >>> k := by
        have := Nat.div_add_mod (cp >>> k) 64
        norm_num
        omega

/-- Base case of the recombination: low chunk plus the rest. -/
theorem shift_or_base (cp : Nat) : ((cp >>> 6) <<< 6) ||| (cp &&& 63) = cp := by
  have := shift_or_step cp 0
  simpa using this

/-- Lead-byte facts for the 2-byte form, checked over all 5-bit payloads. -/
theorem lead2_spec : ∀ y, y < 32 →
    ¬(0xC0 ||| y < 0x80) ∧ leadInfo (0xC0 ||| y) = some (2, y) := by decide

/-- Lead-byte facts for the 3-byte form, checked over all 4-bit payloads. -/
theorem lead3_spec : ∀ y, y < 16 →
    ¬(0xE0 ||| y < 0x80) ∧ leadInfo (0xE0 ||| y) = some (3, y) := by decide

/-- Lead-byte facts for the 4-byte form, checked over all 3-bit payloads. -/
theorem lead4_spec : ∀ y, y < 8 →
    ¬(0xF0 ||| y < 0x80) ∧ leadInfo (0xF0 ||| y) = some (4, y) := by decide

/-- Continuation-byte facts, checked over all 6-bit payloads. -/
theorem cont_spec : ∀ y, y < 64 →
    (0x80 ||| y) &&& 0xC0 = 0x80 ∧ (0x80 ||| y) &&& 0x3F = y := by decide

/-- The continuation loop consumes an encoded continuation byte by shifting
its payload into the accumulator. -/
theorem readCont_encoded (y : Nat) (l : List Nat) (cp0 : Nat) (hy : y < 64) :
    readCont ((0x80 ||| y) :: l) cp0 = readCont l ((cp0 <<< 6) ||| y) := by
  obtain ⟨h1, h2⟩ := cont_spec y hy
  show (if (0x80 ||| y) &&& 0xC0 ≠ 0x80 then none
    else readCont l ((cp0 <<< 6) ||| ((0x80 ||| y) &&& 0x3F))) = _
  rw [h2, if_neg (by simp [h1])]

/-- Decode of a buffer with a valid multi-byte lead and sufficient length,
reduced to the continuation loop and the semantic checks. -/
theorem decode_cons_lead (first : Nat) (rest : List Nat) (sl cp0 : Nat)
    (hnb : ¬first < 0x80) (hli : leadInfo first = some (sl, cp0))
    (hlen : ¬rest.length + 1 < sl) :
    utflite_decode (first :: rest) =
      (match readCont (rest.take (sl - 1)) cp0 with
      | none => (UTFLITE_REPLACEMENT_CHAR, 1)
      | some cp =>
        if (sl = 2 ∧ cp < 0x80) ∨ (sl = 3 ∧ cp < 0x800) ∨ (sl = 4 ∧ cp < 0x10000) then
          (UTFLITE_REPLACEMENT_CHAR, sl)
        else if 0xD800 ≤ cp ∧ cp ≤ 0xDFFF then (UTFLITE_REPLACEMENT_CHAR, sl)
        else if 0x10FFFF < cp then (UTFLITE_REPLACEMENT_CHAR, sl)
        else (cp, sl)) := by
  simp only [utflite_decode, if_neg hnb, hli, if_neg hlen]

/-- C3: for every valid codepoint, encoding and then decoding the written
bytes yields the codepoint back together with the byte count, which is
1/2/3/4 according to the codepoint's range. -/
theorem encode_decode_round_trip :
    ∀ cp b0 b1 b2 b3, cp ≤ 0x10FFFF → ¬(0xD800 ≤ cp ∧ cp ≤ 0xDFFF) →
      utflite_decode ((utflite_encode cp [b0, b1, b2, b3]).2.take
          (utflite_encode cp [b0, b1, b2, b3]).1) =
        (cp, (utflite_encode cp [b0, b1, b2, b3]).1) ∧
      (utflite_encode cp [b0, b1, b2, b3]).1 =
        (if cp < 0x80 then 1 else if cp < 0x800 then 2
          else if cp < 0x10000 then 3 else 4) := by
  intro cp b0 b1 b2 b3 hmax hsur
  have h64 : ∀ x : Nat, x &&& 63 < 64 := fun x => by rw [and63_eq]; omega
  by_cases h1 : cp < 0x80
  · have henc : utflite_encode cp [b0, b1, b2, b3] = (1, [cp, b1, b2, b3]) := by
      unfold utflite_encode
      rw [if_pos h1]
      rfl
    rw [henc]
    refine ⟨?_, by rw [if_pos h1]⟩
    show utflite_decode [cp] = (cp, 1)
    simp [utflite_decode, h1]
  · by_cases h2 : cp < 0x800
    · have hy : cp >>> 6 < 32 := by
        rw [Nat.shiftRight_eq_div_pow]
        norm_num
        omega
      have henc : utflite_encode cp [b0, b1, b2, b3] =
          (2, [0xC0 ||| (cp >>> 6), 0x80 ||| (cp &&& 0x3F), b2, b3]) := by
        unfold utflite_encode
        rw [if_neg h1, if_pos h2]
        rfl
      rw [henc]
      refine ⟨?_, by rw [if_neg h1, if_pos h2]⟩
      show utflite_decode [0xC0 ||| (cp >>> 6), 0x80 ||| (cp &&& 0x3F)] = (cp, 2)
      obtain ⟨hnb, hli⟩ := lead2_spec _ hy
      rw [decode_cons_lead _ _ 2 _ hnb hli (by simp)]
      show (match readCont [0x80 ||| (cp &&& 0x3F)] (cp >>> 6) with
        | none => (UTFLITE_REPLACEMENT_CHAR, 1)
        | some cp' =>
          if (2 = 2 ∧ cp' < 0x80) ∨ (2 = 3 ∧ cp' < 0x800) ∨ (2 = 4 ∧ cp' < 0x10000) then
            (UTFLITE_REPLACEMENT_CHAR, 2)
          else if 0xD800 ≤ cp' ∧ cp' ≤ 0xDFFF then (UTFLITE_REPLACEMENT_CHAR, 2)
          else if 0x10FFFF < cp' then (UTFLITE_REPLACEMENT_CHAR, 2)
          else (cp', 2)) = (cp, 2)
      rw [readCont_encoded _ _ _ (h64 cp), shift_or_base]
      show (if (2 = 2 ∧ cp < 0x80) ∨ (2 = 3 ∧ cp < 0x800) ∨ (2 = 4 ∧ cp < 0x10000) then
          (UTFLITE_REPLACEMENT_CHAR, 2)
        else if 0xD800 ≤ cp ∧ cp ≤ 0xDFFF then (UTFLITE_REPLACEMENT_CHAR, 2)
        else if 0x10FFFF < cp then (UTFLITE_REPLACEMENT_CHAR, 2)
        else (cp, 2)) = (cp, 2)
      rw [if_neg (by omega), if_neg (by omega), if_neg (by omega)]
    · by_cases h3 : cp < 0x10000
      · have hy : cp >>> 12 < 16 := by
          rw [Nat.shiftRight_eq_div_pow]
          norm_num
          omega
        have henc : utflite_encode cp [b0, b1, b2, b3] =
            (3, [0xE0 ||| (cp >>> 12), 0x80 ||| ((cp >>> 6) &&& 0x3F),
              0x80 ||| (cp &&& 0x3F), b3]) := by
          unfold utflite_encode
          rw [if_neg h1, if_neg h2, if_pos h3, if_neg hsur]
          rfl
        rw [henc]
        refine ⟨?_, by rw [if_neg h1, if_neg h2, if_pos h3]⟩
        show utflite_decode [0xE0 ||| (cp >>> 12), 0x80 ||| ((cp >>> 6) &&& 0x3F),
          0x80 ||| (cp &&& 0x3F)] = (cp, 3)
        obtain ⟨hnb, hli⟩ := lead3_spec _ hy
        rw [decode_cons_lead _ _ 3 _ hnb hli (by simp)]
        show (match readCont [0x80 ||| ((cp >>> 6) &&& 0x3F), 0x80 ||| (cp &&& 0x3F)]
            (cp >>> 12) with
          | none => (UTFLITE_REPLACEMENT_CHAR, 1)
          | some cp' =>
            if (3 = 2 ∧ cp' < 0x80) ∨ (3 = 3 ∧ cp' < 0x800) ∨ (3 = 4 ∧ cp' < 0x10000) then
              (UTFLITE_REPLACEMENT_CHAR, 3)
            else if 0xD800 ≤ cp' ∧ cp' ≤ 0xDFFF then (UTFLITE_REPLACEMENT_CHAR, 3)
            else if 0x10FFFF < cp' then (UTFLITE_REPLACEMENT_CHAR, 3)
            else (cp', 3)) = (cp, 3)
        rw [readCont_encoded _ _ _ (h64 (cp >>> 6)),
          show (12 : Nat) = 6 + 6 from rfl, shift_or_step,
          readCont_encoded _ _ _ (h64 cp), shift_or_base]
        show (if (3 = 2 ∧ cp < 0x80) ∨ (3 = 3 ∧ cp < 0x800) ∨ (3 = 4 ∧ cp < 0x10000) then
            (UTFLITE_REPLACEMENT_CHAR, 3)
          else if 0xD800 ≤ cp ∧ cp ≤ 0xDFFF then (UTFLITE_REPLACEMENT_CHAR, 3)
          else if 0x10FFFF < cp then (UTFLITE_REPLACEMENT_CHAR, 3)
          else (cp, 3)) = (cp, 3)
        rw [if_neg (by omega), if_neg (by omega), if_neg (by omega)]
      · have hy : cp >>> 18 < 8 := by
          rw [Nat.shiftRight_eq_div_pow]
          norm_num
          omega
        have henc : utflite_encode cp [b0, b1, b2, b3] =
            (4, [0xF0 ||| (cp >>> 18), 0x80 ||| ((cp >>> 12) &&& 0x3F),
              0x80 ||| ((cp >>> 6) &&& 0x3F), 0x80 ||| (cp &&& 0x3F)]) := by
          unfold utflite_encode
          rw [if_neg h1, if_neg h2, if_neg h3, if_pos hmax]
          rfl
        rw [henc]
        refine ⟨?_, by rw [if_neg h1, if_neg h2, if_neg h3]⟩
        show utflite_decode [0xF0 ||| (cp >>> 18), 0x80 ||| ((cp >>> 12) &&& 0x3F),
          0x80 ||| ((cp >>> 6) &&& 0x3F), 0x80 ||| (cp &&& 0x3F)] = (cp, 4)
        obtain ⟨hnb, hli⟩ := lead4_spec _ hy
        rw [decode_cons_lead _ _ 4 _ hnb hli (by simp)]
        show (match readCont [0x80 ||| ((cp >>> 12) &&& 0x3F),
            0x80 ||| ((cp >>> 6) &&& 0x3F), 0x80 ||| (cp &&& 0x3F)] (cp >>> 18) with
          | none => (UTFLITE_REPLACEMENT_CHAR, 1)
          | some cp' =>
            if (4 = 2 ∧ cp' < 0x80) ∨ (4 = 3 ∧ cp' < 0x800) ∨ (4 = 4 ∧ cp' < 0x10000) then
              (UTFLITE_REPLACEMENT_CHAR, 4)
            else if 0xD800 ≤ cp' ∧ cp' ≤ 0xDFFF then (UTFLITE_REPLACEMENT_CHAR, 4)
            else if 0x10FFFF < cp' then (UTFLITE_REPLACEMENT_CHAR, 4)
            else (cp', 4)) = (cp, 4)
        rw [readCont_encoded _ _ _ (h64 (cp >>> 12)),
          show (18 : Nat) = 12 + 6 from rfl, shift_or_step,
          readCont_encoded _ _ _ (h64 (cp >>> 6)),
          show (12 : Nat) = 6 + 6 from rfl, shift_or_step,
          readCont_encoded _ _ _ (h64 cp), shift_or_base]
        show (if (4 = 2 ∧ cp < 0x80) ∨ (4 = 3 ∧ cp < 0x800) ∨ (4 = 4 ∧ cp < 0x10000) then
            (UTFLITE_REPLACEMENT_CHAR, 4)
          else if 0xD800 ≤ cp ∧ cp ≤ 0xDFFF then (UTFLITE_REPLACEMENT_CHAR, 4)
          else if 0x10FFFF < cp then (UTFLITE_REPLACEMENT_CHAR, 4)
          else (cp, 4)) = (cp, 4)
        rw [if_neg (by omega), if_neg (by omega), if_neg (by omega)]

/-- Witness for C3 at the concrete codepoints 0xE9 (2 bytes) and 0x4E2D (3 bytes). -/
theorem encode_decode_round_trip_witness :
    (utflite_decode ((utflite_encode 0xE9 [0, 0, 0, 0]).2.take
        (utflite_encode 0xE9 [0, 0, 0, 0]).1) =
      (0xE9, (utflite_encode 0xE9 [0, 0, 0, 0]).1)) ∧
    (utflite_decode ((utflite_encode 0x4E2D [0, 0, 0, 0]).2.take
        (utflite_encode 0x4E2D [0, 0, 0, 0]).1) =
      (0x4E2D, (utflite_encode 0x4E2D [0, 0, 0, 0]).1)) :=
  ⟨(encode_decode_round_trip 0xE9 0 0 0 0 (by decide) (by decide)).1,
   (encode_decode_round_trip 0x4E2D 0 0 0 0 (by decide) (by decide)).1⟩

/-!
Claim C5: codepoint width classification. The claim speaks about membership
in the width tables, so we first prove the binary search correct for sorted,
non-overlapping range tables.
-/

theorem sorted_ranges_cons {a b : Nat × Nat} {l : List (Nat × Nat)}
    (h : sorted_ranges (a :: b :: l) = true) :
    a.1 ≤ a.2 ∧ a.2 < b.1 ∧ sorted_ranges (b :: l) = true := by
  have h' := h
  simp only [sorted_ranges, Bool.and_eq_true, decide_eq_true_eq] at h'
  exact ⟨h'.1.1, h'.1.2, h'.2⟩

theorem sorted_ranges_valid {t : List (Nat × Nat)} (h : sorted_ranges t = true) :
    ∀ r ∈ t, r.1 ≤ r.2 := by
  induction t with
  | nil => simp
  | cons a l ih =>
    intro r hr
    cases l with
    | nil =>
      simp only [List.mem_singleton] at hr
      subst hr
      simpa [sorted_ranges] using h
    | cons b rest =>
      obtain ⟨h1, _, h3⟩ := sorted_ranges_cons h
      rcases List.mem_cons.mp hr with rfl | hr'
      · exact h1
      · exact ih h3 r hr'

theorem getD_eq_of_lt {α : Type} {l : List α} {n : Nat} (h : n < l.length) (d : α) :
    l.getD n d = l[n] := by
  simp [List.getD_eq_getElem?_getD, List.getElem?_eq_getElem h]

/-- Adjacent ranges of a sorted table are separated. -/
theorem sorted_adj {t : List (Nat × Nat)} (h : sorted_ranges t = true) :
    ∀ i, i + 1 < t.length → (t.getD i (0, 0)).2 < (t.getD (i + 1) (0, 0)).1 := by
  induction t with
  | nil => intro i hi; simp at hi
  | cons a l ih =>
    intro i hi
    cases l with
    | nil => simp at hi
    | cons b rest =>
      obtain ⟨_, h2, h3⟩ := sorted_ranges_cons h
      cases i with
      | zero => exact h2
      | succ j => exact ih h3 j (by simpa using hi)

/-- In a sorted non-overlapping table, an earlier range ends strictly before
a later range starts. -/
theorem sorted_sep {t : List (Nat × Nat)} (h : sorted_ranges t = true) :
    ∀ i j, i < j → j < t.length →
      (t.getD i (0, 0)).2 < (t.getD j (0, 0)).1 := by
  have hv := sorted_ranges_valid h
  intro i j
  induction j with
  | zero => intro hij _; omega
  | succ n ih =>
    intro hij hj
    rcases Nat.lt_or_ge i n with hin | hin
    · have h1 := ih hin (by omega)
      have h2 : (t.getD n (0, 0)).1 ≤ (t.getD n (0, 0)).2 := by
        rw [getD_eq_of_lt (show n < t.length by omega)]
        exact hv _ (List.getElem_mem _)
      have h3 := sorted_adj h n hj
      omega
    · have hin' : i = n := by omega
      subst hin'
      exact sorted_adj h i hj

/-- Correctness of the binary search loop on a sorted table: it reports
exactly whether some range inside the search window contains the codepoint,
provided no range outside the window does. -/
theorem urcGo_correct (cp : Nat) (t : List (Nat × Nat)) (hs : sorted_ranges t = true) :
    ∀ fuel (low high : Int), 0 ≤ low → high < (t.length : Int) →
      (high + 1 - low).toNat < fuel →
      (urcGo cp t fuel low high = true ↔
        ∃ i : Nat, low ≤ (i : Int) ∧ (i : Int) ≤ high ∧ i < t.length ∧
          (t.getD i (0, 0)).1 ≤ cp ∧ cp ≤ (t.getD i (0, 0)).2) := by
  intro fuel
  induction fuel with
  | zero => intro low high _ _ hfuel; omega
  | succ n ih =>
    intro low high hlow hhigh hfuel
    by_cases hle : low ≤ high
    · have hmid1 : low ≤ (low + high) / 2 := by omega
      have hmid2 : (low + high) / 2 ≤ high := by omega
      have hmidlen : ((low + high) / 2).toNat < t.length := by omega
      have hmidnat : (((low + high) / 2).toNat : Int) = (low + high) / 2 := by omega
      show (if low ≤ high then
          if cp < (t.getD ((low + high) / 2).toNat (0, 0)).1 then
            urcGo cp t n low ((low + high) / 2 - 1)
          else if (t.getD ((low + high) / 2).toNat (0, 0)).2 < cp then
            urcGo cp t n ((low + high) / 2 + 1) high
          else true
        else false) = true ↔ _
      rw [if_pos hle]
      by_cases hlt : cp < (t.getD ((low + high) / 2).toNat (0, 0)).1
      · rw [if_pos hlt, ih low ((low + high) / 2 - 1) hlow (by omega) (by omega)]
        constructor
        · rintro ⟨i, h1, h2, h3, h4, h5⟩
          exact ⟨i, h1, by omega, h3, h4, h5⟩
        · rintro ⟨i, h1, h2, h3, h4, h5⟩
          refine ⟨i, h1, ?_, h3, h4, h5⟩
          by_contra hcon
          have himid : ((low + high) / 2).toNat ≤ i := by omega
          have hstart : (t.getD ((low + high) / 2).toNat (0, 0)).1 ≤ (t.getD i (0, 0)).1 := by
            rcases Nat.eq_or_lt_of_le himid with heq | hlt2
            · rw [heq]
            · have hsep := sorted_sep hs _ i hlt2 h3
              have hvm : (t.getD ((low + high) / 2).toNat (0, 0)).1 ≤
                  (t.getD ((low + high) / 2).toNat (0, 0)).2 := by
                rw [getD_eq_of_lt hmidlen]
                exact sorted_ranges_valid hs _ (List.getElem_mem _)
              omega
          omega
      · by_cases hgt : (t.getD ((low + high) / 2).toNat (0, 0)).2 < cp
        · rw [if_neg hlt, if_pos hgt, ih ((low + high) / 2 + 1) high (by omega) hhigh (by omega)]
          constructor
          · rintro ⟨i, h1, h2, h3, h4, h5⟩
            exact ⟨i, by omega, h2, h3, h4, h5⟩
          · rintro ⟨i, h1, h2, h3, h4, h5⟩
            refine ⟨i, ?_, h2, h3, h4, h5⟩
            by_contra hcon
            have himid : i ≤ ((low + high) / 2).toNat := by omega
            have hend : (t.getD i (0, 0)).2 ≤ (t.getD ((low + high) / 2).toNat (0, 0)).2 := by
              rcases Nat.eq_or_lt_of_le himid with heq | hlt2
              · rw [heq]
              · have hsep := sorted_sep hs i _ hlt2 hmidlen
                have hvm : (t.getD ((low + high) / 2).toNat (0, 0)).1 ≤
                    (t.getD ((low + high) / 2).toNat (0, 0)).2 := by
                  rw [getD_eq_of_lt hmidlen]
                  exact sorted_ranges_valid hs _ (List.getElem_mem _)
                omega
            omega
        · rw [if_neg hlt, if_neg hgt]
          constructor
          · intro _
            exact ⟨((low + high) / 2).toNat, by omega, by omega, hmidlen, by omega, by omega⟩
          · intro _
            rfl
    · show (if low ≤ high then _ else false) = true ↔ _
      rw [if_neg hle]
      constructor
      · intro h
        exact absurd h (by simp)
      · rintro ⟨i, h1, h2, _⟩
        omega

/-- The binary search of the code agrees with direct table membership on
sorted, non-overlapping tables. -/
theorem unicode_range_contains_eq_in_table (cp : Nat) (t : List (Nat × Nat))
    (hs : sorted_ranges t = true) :
    unicode_range_contains cp t = in_table cp t := by
  have hmain := urcGo_correct cp t hs (t.length + 1) 0 ((t.length : Int) - 1)
    (by omega) (by omega) (by omega)
  have hright : in_table cp t = true ↔
      ∃ i : Nat, (0 : Int) ≤ (i : Int) ∧ (i : Int) ≤ (t.length : Int) - 1 ∧ i < t.length ∧
        (t.getD i (0, 0)).1 ≤ cp ∧ cp ≤ (t.getD i (0, 0)).2 := by
    rw [in_table, List.any_eq_true]
    constructor
    · rintro ⟨r, hr, hp⟩
      have hp' : r.1 ≤ cp ∧ cp ≤ r.2 := by simpa using hp
      obtain ⟨i, hi, hie⟩ := List.mem_iff_getElem.mp hr
      refine ⟨i, by omega, by omega, hi, ?_, ?_⟩
      · rw [getD_eq_of_lt hi, hie]
        exact hp'.1
      · rw [getD_eq_of_lt hi, hie]
        exact hp'.2
    · rintro ⟨i, _, _, hi, h4, h5⟩
      refine ⟨t[i], List.getElem_mem _, ?_⟩
      rw [getD_eq_of_lt hi] at h4 h5
      simp [h4, h5]
  cases hval : in_table cp t with
  | true =>
    rw [unicode_range_contains, hmain, hright.symm]
    exact hval
  | false =>
    rw [unicode_range_contains]
    cases hu : urcGo cp t (t.length + 1) 0 ((t.length : Int) - 1) with
    | true => exact absurd (hright.mpr (hmain.mp hu)) (by simp [hval])
    | false => rfl

/-- The zero-width table satisfies the sortedness invariant of spec §3. -/
theorem zw_sorted : sorted_ranges ZERO_WIDTH_RANGES = true := by rfl

/-- The double-width table satisfies the sortedness invariant of spec §3. -/
theorem dw_sorted : sorted_ranges DOUBLE_WIDTH_RANGES = true := by rfl

/-- Width agreement on the low codepoints, checked exhaustively. -/
theorem width_agree_low : ∀ c, c < 0xA0 →
    utflite_codepoint_width c = codepoint_width_spec c := by decide

/-- C5: for every codepoint, `utflite_codepoint_width` returns exactly what
the claim's classification prescribes: -1 for non-printable controls, 0 for
NUL and zero-width-table members, 2 for double-width-table members, 1
otherwise, with U+00AD special-cased to 1. -/
theorem codepoint_width_eq_spec :
    ∀ cp, utflite_codepoint_width cp = codepoint_width_spec cp := by
  intro cp
  by_cases hlow : cp < 0xA0
  · exact width_agree_low cp hlow
  · have hz := unicode_range_contains_eq_in_table cp ZERO_WIDTH_RANGES zw_sorted
    have hd := unicode_range_contains_eq_in_table cp DOUBLE_WIDTH_RANGES dw_sorted
    unfold utflite_codepoint_width codepoint_width_spec
    rw [if_neg (by omega), if_neg (by omega), if_neg (by omega), if_neg (by omega)]
    by_cases had : cp = 0xAD
    · rw [if_pos had, if_pos had]
    · have hnp : nonprintable_control cp = false := by
        simp [nonprintable_control]
        omega
      rw [if_neg had, if_neg had, hz, hd, hnp]
      simp only [Bool.false_eq_true, if_false]
      have hne0 : ¬cp = 0 := by omega
      cases hzt : in_table cp ZERO_WIDTH_RANGES with
      | true => simp
      | false =>
        cases hdt : in_table cp DOUBLE_WIDTH_RANGES with
        | true => simp [hne0]
        | false => simp [hne0]

/-!
Claim C8: validation. The validator is characterised over the walk generated
by successive decode steps.
-/

theorem decode_step_reach_ge (text : List Nat) :
    ∀ n o, o ≤ (decode_step text)^[n] o := by
  intro n
  induction n with
  | zero => intro o; simp
  | succ m ih =>
    intro o
    rw [Function.iterate_succ_apply]
    have h1 : o ≤ decode_step text o := by
      have := (decode_consumed_bounds (region text text.length o)).1
      unfold decode_step
      omega
    exact Nat.le_trans h1 (ih _)

theorem reachedFrom_step_iff (text : List Nat) (o p : Nat) :
    ReachedFrom text o p ↔ p = o ∨ ReachedFrom text (decode_step text o) p := by
  constructor
  · rintro ⟨n, hn⟩
    cases n with
    | zero => left; exact hn.symm
    | succ m => right; exact ⟨m, by rwa [Function.iterate_succ_apply] at hn⟩
  · rintro (rfl | ⟨n, hn⟩)
    · exact ⟨0, rfl⟩
    · exact ⟨n + 1, by rwa [Function.iterate_succ_apply]⟩

/-- Loop invariant of the validator: starting at any offset with adequate
fuel, it answers `none` exactly when every reachable in-bounds offset is a
good step, and reports the first bad reachable offset otherwise. -/
theorem validateGo_spec (text : List Nat) :
    ∀ fuel o, text.length - o < fuel →
      (validateGo text fuel o = none ↔
        ∀ p, ReachedFrom text o p → p < text.length → GoodStep text p) ∧
      (∀ e, validateGo text fuel o = some e →
        ReachedFrom text o e ∧ e < text.length ∧ ¬GoodStep text e ∧
        ∀ p, ReachedFrom text o p → p < e → GoodStep text p) := by
  intro fuel
  induction fuel with
  | zero => intro o h; omega
  | succ m ih =>
    intro o hfuel
    by_cases ho : o < text.length
    · have hcons := (decode_consumed_bounds (region text text.length o)).1
      by_cases hbad : (utflite_decode (region text text.length o)).1 =
          UTFLITE_REPLACEMENT_CHAR ∧
          (text.getD o 0 ≠ 0xEF ∨ text.length - o < 3 ∨
            text.getD (o + 1) 0 ≠ 0xBF ∨ text.getD (o + 2) 0 ≠ 0xBD)
      · have hrun : validateGo text (m + 1) o = some o := by
          show (if o < text.length then _ else none) = some o
          rw [if_pos ho, if_pos hbad]
        have hnotgood : ¬GoodStep text o := by
          intro hg
          rcases hg with hg | ⟨g1, g2, g3, g4⟩
          · exact hg (by simpa [UTFLITE_REPLACEMENT_CHAR] using hbad.1)
          · rcases hbad.2 with h | h | h | h
            · exact h g1
            · omega
            · exact h g3
            · exact h g4
        constructor
        · rw [hrun]
          constructor
          · intro h; exact absurd h (by simp)
          · intro hall
            exact absurd (hall o ⟨0, rfl⟩ ho) hnotgood
        · intro e he
          rw [hrun] at he
          have : e = o := by injection he with h; omega
          subst this
          refine ⟨⟨0, rfl⟩, ho, hnotgood, ?_⟩
          intro p hp hpe
          have := decode_step_reach_ge text
          obtain ⟨n, hn⟩ := hp
          have : e ≤ p := hn ▸ decode_step_reach_ge text n e
          omega
      · have hrun : validateGo text (m + 1) o = validateGo text m (decode_step text o) := by
          show (if o < text.length then _ else none) = _
          rw [if_pos ho, if_neg hbad]
          rfl
        have hgood : GoodStep text o := by
          unfold GoodStep
          by_cases hrep : (utflite_decode (region text text.length o)).1 = 0xFFFD
          · right
            have hnd : ¬(text.getD o 0 ≠ 0xEF ∨ text.length - o < 3 ∨
                text.getD (o + 1) 0 ≠ 0xBF ∨ text.getD (o + 2) 0 ≠ 0xBD) :=
              fun h => hbad ⟨by simpa [UTFLITE_REPLACEMENT_CHAR] using hrep, h⟩
            push_neg at hnd
            exact ⟨hnd.1, by omega, hnd.2.2.1, hnd.2.2.2⟩
          · left; exact hrep
        have ihs := ih (decode_step text o) (by unfold decode_step; omega)
        constructor
        · rw [hrun, ihs.1]
          constructor
          · intro hall p hp hplen
            rcases (reachedFrom_step_iff text o p).mp hp with rfl | hp'
            · exact hgood
            · exact hall p hp' hplen
          · intro hall p hp hplen
            exact hall p ((reachedFrom_step_iff text o p).mpr (Or.inr hp)) hplen
        · intro e he
          rw [hrun] at he
          obtain ⟨h1, h2, h3, h4⟩ := ihs.2 e he
          refine ⟨(reachedFrom_step_iff text o e).mpr (Or.inr h1), h2, h3, ?_⟩
          intro p hp hpe
          rcases (reachedFrom_step_iff text o p).mp hp with rfl | hp'
          · exact hgood
          · exact h4 p hp' hpe
    · have hrun : validateGo text (m + 1) o = none := by
        show (if o < text.length then _ else none) = none
        rw [if_neg ho]
      constructor
      · rw [hrun]
        constructor
        · intro _ p hp hplen
          obtain ⟨n, hn⟩ := hp
          have := hn ▸ decode_step_reach_ge text n o
          omega
        · intro _; rfl
      · intro e he
        rw [hrun] at he
        exact absurd he (by simp)

/-- C8: `utflite_validate` returns valid exactly when every decode step of
the walk either yields a codepoint other than U+FFFD or sits at an offset
whose next three bytes are literally 0xEF 0xBF 0xBD; on invalid input it
reports the first offending walk offset. -/
theorem validate_spec :
    ∀ text,
      (utflite_validate text = none ↔
        ∀ p, ReachedFrom text 0 p → p < text.length → GoodStep text p) ∧
      (∀ e, utflite_validate text = some e →
        ReachedFrom text 0 e ∧ e < text.length ∧ ¬GoodStep text e ∧
        ∀ p, ReachedFrom text 0 p → p < e → GoodStep text p) :=
  fun text => validateGo_spec text (text.length + 1) 0 (by omega)

/-- Witness for C8: a bare continuation byte is reported at offset 0. -/
theorem validate_spec_witness :
    ReachedFrom [0x80] 0 0 ∧ 0 < [0x80].length ∧ ¬GoodStep [0x80] 0 ∧
      ∀ p, ReachedFrom [0x80] 0 p → p < 0 → GoodStep [0x80] p :=
  (validate_spec [0x80]).2 0 (by rfl)

/-!
Claim C10: backward navigation bounds and progress.
-/

theorem scanBack_bounds (text : List Nat) (limit : Nat) :
    ∀ fuel pos, limit ≤ pos →
      limit ≤ scanBack text limit fuel pos ∧ scanBack text limit fuel pos ≤ pos := by
  intro fuel
  induction fuel with
  | zero => intro pos h; exact ⟨h, le_rfl⟩
  | succ n ih =>
    intro pos h
    show limit ≤ (if limit < pos ∧ (text.getD pos 0) &&& 0xC0 = 0x80 then
        scanBack text limit n (pos - 1) else pos) ∧
      (if limit < pos ∧ (text.getD pos 0) &&& 0xC0 = 0x80 then
        scanBack text limit n (pos - 1) else pos) ≤ pos
    by_cases hc : limit < pos ∧ (text.getD pos 0) &&& 0xC0 = 0x80
    · rw [if_pos hc]
      have := ih (pos - 1) (by omega)
      omega
    · rw [if_neg hc]
      exact ⟨h, le_rfl⟩

theorem prev_char_core_bounds (text : List Nat) (offset : Nat) (h : 0 < offset) :
    offset - 4 ≤ prev_char_core text offset ∧ prev_char_core text offset < offset := by
  unfold prev_char_core
  rw [if_neg (by omega)]
  have := scanBack_bounds text (offset - 4) offset (offset - 1) (by omega)
  omega

theorem rewindGo_le (text : List Nat) : ∀ n s, rewindGo text n s ≤ s := by
  intro n
  induction n with
  | zero => intro s; exact le_rfl
  | succ m ih =>
    intro s
    show (if 0 < s then
        if prev_char_core text s = s then s
        else rewindGo text m (prev_char_core text s)
      else s) ≤ s
    by_cases h0 : 0 < s
    · rw [if_pos h0]
      by_cases hp : prev_char_core text s = s
      · rw [if_pos hp]
      · rw [if_neg hp]
        have h1 := (prev_char_core_bounds text s h0).2
        exact le_trans (ih _) (by omega)
    · rw [if_neg h0]

theorem forwardScanGo_lt (text : List Nat) (offset : Nat) :
    ∀ fuel curr gs, gs < offset →
      forwardScanGo text offset fuel curr gs < offset := by
  intro fuel
  induction fuel with
  | zero => intro curr gs h; exact h
  | succ m ih =>
    intro curr gs h
    show (if curr < offset then
        if offset ≤ utflite_next_grapheme text offset curr then gs
        else forwardScanGo text offset m (utflite_next_grapheme text offset curr)
          (utflite_next_grapheme text offset curr)
      else gs) < offset
    by_cases hc : curr < offset
    · rw [if_pos hc]
      by_cases hn : offset ≤ utflite_next_grapheme text offset curr
      · rw [if_pos hn]; exact h
      · rw [if_neg hn]; exact ih _ _ (by omega)
    · rw [if_neg hc]; exact h

theorem prev_grapheme_core_lt (text : List Nat) (offset : Nat) (h : 0 < offset) :
    prev_grapheme_core text offset < offset := by
  unfold prev_grapheme_core
  rw [if_neg (by omega)]
  by_cases hp : prev_char_core text offset = 0
  · rw [if_pos hp]; omega
  · rw [if_neg hp]
    apply forwardScanGo_lt
    have h1 := (prev_char_core_bounds text offset h).2
    have h2 := rewindGo_le text GRAPHEME_MAX_BACKTRACK (prev_char_core text offset)
    omega

/-- C10: for every positive offset, `prev_char` lands in
[max 0 (offset-4), offset) and `prev_grapheme` lands in [0, offset); for
every offset at or below 0 both return 0. -/
theorem backward_navigation_bounds :
    ∀ text (offset : Int),
      (0 < offset →
        max 0 (offset - 4) ≤ utflite_prev_char text offset ∧
        utflite_prev_char text offset < offset) ∧
      (0 < offset →
        0 ≤ utflite_prev_grapheme text offset ∧
        utflite_prev_grapheme text offset < offset) ∧
      (offset ≤ 0 →
        utflite_prev_char text offset = 0 ∧ utflite_prev_grapheme text offset = 0) := by
  intro text offset
  refine ⟨fun hpos => ?_, fun hpos => ?_, fun hneg => ?_⟩
  · unfold utflite_prev_char
    rw [if_neg (by omega)]
    have := prev_char_core_bounds text offset.toNat (by omega)
    omega
  · unfold utflite_prev_grapheme
    rw [if_neg (by omega)]
    have := prev_grapheme_core_lt text offset.toNat (by omega)
    omega
  · unfold utflite_prev_char utflite_prev_grapheme
    rw [if_pos hneg, if_pos hneg]
    exact ⟨rfl, rfl⟩

/-- Witness for C10 at a concrete buffer, a positive and a negative offset. -/
theorem backward_navigation_bounds_witness :
    (max 0 ((3 : Int) - 4) ≤ utflite_prev_char [0x41, 0xC3, 0xA9] 3 ∧
      utflite_prev_char [0x41, 0xC3, 0xA9] 3 < 3) ∧
    (0 ≤ utflite_prev_grapheme [0x41, 0xC3, 0xA9] 3 ∧
      utflite_prev_grapheme [0x41, 0xC3, 0xA9] 3 < 3) ∧
    (utflite_prev_char [0x41, 0xC3, 0xA9] (-2) = 0 ∧
      utflite_prev_grapheme [0x41, 0xC3, 0xA9] (-2) = 0) :=
  ⟨(backward_navigation_bounds [0x41, 0xC3, 0xA9] 3).1 (by decide),
   (backward_navigation_bounds [0x41, 0xC3, 0xA9] 3).2.1 (by decide),
   (backward_navigation_bounds [0x41, 0xC3, 0xA9] (-2)).2.2 (by decide)⟩

/-!
Claim C9: structure of `prev_grapheme`. The forward rescan is characterised
via the chain of `next_grapheme` boundaries below `offset`.
-/

/-- One unfolding of the grapheme scan loop, hiding the updated scan state
behind existentials. -/
theorem nextGraphemeGo_step (text : List Nat) (length fuel : Nat) (p : GcbProp)
    (ri : Nat) (ext : Bool) (incb no : Nat) :
    ∃ p' ri' ext' incb',
      nextGraphemeGo text length (fuel + 1) p ri ext incb no =
        if no < length then
          if is_grapheme_break p (get_gcb (utflite_decode (region text length no)).1) ri ext
              (utflite_decode (region text length no)).1 incb then no
          else nextGraphemeGo text length fuel p' ri' ext' incb'
            (no + (utflite_decode (region text length no)).2)
        else length :=
  ⟨_, _, _, _, rfl⟩

theorem nextGraphemeGo_bounds (text : List Nat) (length : Nat) :
    ∀ fuel p ri ext incb no,
      nextGraphemeGo text length fuel p ri ext incb no = length ∨
      (no ≤ nextGraphemeGo text length fuel p ri ext incb no ∧
        nextGraphemeGo text length fuel p ri ext incb no < length) := by
  intro fuel
  induction fuel with
  | zero => intro p ri ext incb no; left; rfl
  | succ m ih =>
    intro p ri ext incb no
    obtain ⟨p', ri', ext', incb', heq⟩ := nextGraphemeGo_step text length m p ri ext incb no
    rw [heq]
    split_ifs with h1 h2
    · right; exact ⟨le_rfl, h1⟩
    · rcases ih p' ri' ext' incb' (no + (utflite_decode (region text length no)).2) with
        h | ⟨ha, hb⟩
      · left; exact h
      · right
        have := (decode_consumed_bounds (region text length no)).1
        exact ⟨by omega, hb⟩
    · left; rfl

/-- One unfolding of `next_grapheme`, hiding the initial scan state behind
existentials. -/
theorem next_grapheme_unfold (text : List Nat) (length offset : Nat) :
    ∃ p ri ext incb,
      utflite_next_grapheme text length offset =
        if length ≤ offset then length
        else if length ≤ offset + (utflite_decode (region text length offset)).2 then length
        else nextGraphemeGo text length
          (length - (offset + (utflite_decode (region text length offset)).2)) p ri ext incb
          (offset + (utflite_decode (region text length offset)).2) :=
  ⟨_, _, _, _, rfl⟩

/-- Forward progress and boundedness of `next_grapheme`. -/
theorem next_grapheme_bounds (text : List Nat) (length offset : Nat) :
    (offset < length → offset < utflite_next_grapheme text length offset ∧
      utflite_next_grapheme text length offset ≤ length) ∧
    (length ≤ offset → utflite_next_grapheme text length offset = length) := by
  obtain ⟨p, ri, ext, incb, heq⟩ := next_grapheme_unfold text length offset
  have hcons := (decode_consumed_bounds (region text length offset)).1
  constructor
  · intro h
    rw [heq, if_neg (by omega)]
    by_cases h2 : length ≤ offset + (utflite_decode (region text length offset)).2
    · rw [if_pos h2]
      omega
    · rw [if_neg h2]
      rcases nextGraphemeGo_bounds text length
          (length - (offset + (utflite_decode (region text length offset)).2)) p ri ext incb
          (offset + (utflite_decode (region text length offset)).2) with hg | ⟨hga, hgb⟩
      · rw [hg]
        omega
      · omega
  · intro h
    rw [heq, if_pos h]

/-- The forward rescan follows the `next_grapheme` chain and stops exactly
when the next boundary would reach or pass `offset`. -/
theorem forwardScanGo_spec (text : List Nat) (offset : Nat) :
    ∀ fuel a curr, curr < offset → offset - curr < fuel →
      NGReach text offset a curr →
      NGReach text offset a (forwardScanGo text offset fuel curr curr) ∧
      offset ≤ utflite_next_grapheme text offset
        (forwardScanGo text offset fuel curr curr) := by
  have hsucc : ∀ m curr gs, forwardScanGo text offset (m + 1) curr gs =
      if curr < offset then
        if offset ≤ utflite_next_grapheme text offset curr then gs
        else forwardScanGo text offset m (utflite_next_grapheme text offset curr)
          (utflite_next_grapheme text offset curr)
      else gs := fun _ _ _ => rfl
  intro fuel
  induction fuel with
  | zero => intro a curr h1 h2 _; omega
  | succ m ih =>
    intro a curr h1 h2 hreach
    rw [hsucc, if_pos h1]
    by_cases hn : offset ≤ utflite_next_grapheme text offset curr
    · rw [if_pos hn]
      exact ⟨hreach, hn⟩
    · rw [if_neg hn]
      have hprog := ((next_grapheme_bounds text offset curr).1 h1).1
      exact ih a (utflite_next_grapheme text offset curr) (by omega) (by omega)
        (NGReach.step hreach (by omega))

/-- Every link of an `NGReach` chain decomposes at its first step: the target
is the source itself, or it is reached from the source's own `next_grapheme`
boundary (which then lies strictly below `offset`). -/
theorem ngreach_dec (text : List Nat) (offset : Nat) :
    ∀ x y, NGReach text offset x y → y = x ∨
      (utflite_next_grapheme text offset x < offset ∧
        NGReach text offset (utflite_next_grapheme text offset x) y) := by
  intro x y h
  induction h with
  | refl => left; rfl
  | step hab hb ih =>
    rcases ih with rfl | ⟨h1, h2⟩
    · right; exact ⟨hb, NGReach.refl _⟩
    · right; exact ⟨h1, NGReach.step h2 hb⟩

/-- Any two positions reached from the same anchor are comparable on the
`next_grapheme` chain. -/
theorem ngreach_total (text : List Nat) (offset : Nat) :
    ∀ a r s, NGReach text offset a r → NGReach text offset a s →
      NGReach text offset r s ∨ NGReach text offset s r := by
  intro a r s h1 h2
  induction h2 with
  | refl => right; exact h1
  | step hab hb ih =>
    rcases ih with hrb | hbr
    · left; exact NGReach.step hrb hb
    · rcases ngreach_dec text offset _ _ hbr with rfl | ⟨hx1, hx2⟩
      · left; exact NGReach.step (NGReach.refl _) hb
      · right; exact hx2

/-- A chain element whose next boundary reaches or passes `offset` is the
last one: two such elements reached from one anchor coincide. -/
theorem ngreach_last_unique (text : List Nat) (offset : Nat)
    (a r s : Nat) (h1 : NGReach text offset a r) (h2 : NGReach text offset a s)
    (hr : offset ≤ utflite_next_grapheme text offset r)
    (hs : offset ≤ utflite_next_grapheme text offset s) : r = s := by
  rcases ngreach_total text offset a r s h1 h2 with h | h
  · rcases ngreach_dec text offset r s h with rfl | ⟨hx, _⟩
    · rfl
    · omega
  · rcases ngreach_dec text offset s r h with rfl | ⟨hx, _⟩
    · rfl
    · omega

/-- C9 (amended): for every positive offset, `prev_grapheme` stays in
[0, offset) and behaves as follows. When the previous codepoint boundary
`prev_char(offset)` is 0, it returns 0 immediately, skipping the rescan
(even if a rescan from the buffer start would find a later boundary).
Otherwise it returns the unique position on the `next_grapheme` boundary
chain started at the rewind anchor — the anchor obtained by at most
`GRAPHEME_MAX_BACKTRACK` `prev_char` steps back from the previous codepoint
boundary — whose next boundary reaches or passes `offset`: the last boundary
the bounded rescan finds strictly before `offset`, the anchor itself serving
as the fallback when the rescan finds none. -/
theorem prev_grapheme_spec :
    ∀ text (offset : Int), 0 < offset →
      0 ≤ utflite_prev_grapheme text offset ∧
      utflite_prev_grapheme text offset < offset ∧
      (prev_char_core text offset.toNat = 0 →
        utflite_prev_grapheme text offset = 0) ∧
      (prev_char_core text offset.toNat ≠ 0 →
        NGReach text offset.toNat
            (rewindGo text GRAPHEME_MAX_BACKTRACK (prev_char_core text offset.toNat))
            (utflite_prev_grapheme text offset).toNat ∧
          offset ≤ (utflite_next_grapheme text offset.toNat
            (utflite_prev_grapheme text offset).toNat : Int) ∧
          ∀ r : Nat, NGReach text offset.toNat
              (rewindGo text GRAPHEME_MAX_BACKTRACK (prev_char_core text offset.toNat)) r →
            offset ≤ (utflite_next_grapheme text offset.toNat r : Int) →
            (r : Int) = utflite_prev_grapheme text offset) := by
  intro text offset hpos
  have hcore := prev_grapheme_core_lt text offset.toNat (by omega)
  have h1 : 0 ≤ utflite_prev_grapheme text offset := by
    unfold utflite_prev_grapheme
    split_ifs
    · exact le_rfl
    · exact Int.natCast_nonneg _
  have h2 : utflite_prev_grapheme text offset < offset := by
    unfold utflite_prev_grapheme
    rw [if_neg (by omega)]
    omega
  refine ⟨h1, h2, ?_, ?_⟩
  · intro hp
    unfold utflite_prev_grapheme
    rw [if_neg (by omega)]
    unfold prev_grapheme_core
    rw [if_neg (by omega), if_pos hp]
    simp
  · intro hp
    have heq : utflite_prev_grapheme text offset =
        (forwardScanGo text offset.toNat (offset.toNat + 1)
          (rewindGo text GRAPHEME_MAX_BACKTRACK (prev_char_core text offset.toNat))
          (rewindGo text GRAPHEME_MAX_BACKTRACK (prev_char_core text offset.toNat)) : Nat) := by
      unfold utflite_prev_grapheme
      rw [if_neg (by omega)]
      unfold prev_grapheme_core
      rw [if_neg (by omega), if_neg hp]
    have hpcb := (prev_char_core_bounds text offset.toNat (by omega)).2
    have hrle := rewindGo_le text GRAPHEME_MAX_BACKTRACK (prev_char_core text offset.toNat)
    obtain ⟨hreach, hnext⟩ := forwardScanGo_spec text offset.toNat (offset.toNat + 1)
      (rewindGo text GRAPHEME_MAX_BACKTRACK (prev_char_core text offset.toNat))
      (rewindGo text GRAPHEME_MAX_BACKTRACK (prev_char_core text offset.toNat))
      (by omega) (by omega) (NGReach.refl _)
    have htn : (utflite_prev_grapheme text offset).toNat =
        forwardScanGo text offset.toNat (offset.toNat + 1)
          (rewindGo text GRAPHEME_MAX_BACKTRACK (prev_char_core text offset.toNat))
          (rewindGo text GRAPHEME_MAX_BACKTRACK (prev_char_core text offset.toNat)) := by
      rw [heq]
      omega
    refine ⟨?_, ?_, ?_⟩
    · rw [htn]
      exact hreach
    · rw [htn]
      omega
    · intro r hr hrterm
      have huni := ngreach_last_unique text offset.toNat
        (rewindGo text GRAPHEME_MAX_BACKTRACK (prev_char_core text offset.toNat)) r
        (forwardScanGo text offset.toNat (offset.toNat + 1)
          (rewindGo text GRAPHEME_MAX_BACKTRACK (prev_char_core text offset.toNat))
          (rewindGo text GRAPHEME_MAX_BACKTRACK (prev_char_core text offset.toNat)))
        hr hreach (by omega) hnext
      rw [heq]
      omega

/-- Witness for the amended C9 at a concrete buffer and offset that takes
the rescan path (the previous codepoint boundary is nonzero). -/
theorem prev_grapheme_spec_witness :
    0 ≤ utflite_prev_grapheme [0x41, 0xC3, 0xA9] 3 ∧
      utflite_prev_grapheme [0x41, 0xC3, 0xA9] 3 < 3 ∧
      (prev_char_core [0x41, 0xC3, 0xA9] (3 : Int).toNat = 0 →
        utflite_prev_grapheme [0x41, 0xC3, 0xA9] 3 = 0) ∧
      (prev_char_core [0x41, 0xC3, 0xA9] (3 : Int).toNat ≠ 0 →
        NGReach [0x41, 0xC3, 0xA9] (3 : Int).toNat
            (rewindGo [0x41, 0xC3, 0xA9] GRAPHEME_MAX_BACKTRACK
              (prev_char_core [0x41, 0xC3, 0xA9] (3 : Int).toNat))
            (utflite_prev_grapheme [0x41, 0xC3, 0xA9] 3).toNat ∧
          (3 : Int) ≤ (utflite_next_grapheme [0x41, 0xC3, 0xA9] (3 : Int).toNat
            (utflite_prev_grapheme [0x41, 0xC3, 0xA9] 3).toNat : Int) ∧
          ∀ r : Nat, NGReach [0x41, 0xC3, 0xA9] (3 : Int).toNat
              (rewindGo [0x41, 0xC3, 0xA9] GRAPHEME_MAX_BACKTRACK
                (prev_char_core [0x41, 0xC3, 0xA9] (3 : Int).toNat)) r →
            (3 : Int) ≤ (utflite_next_grapheme [0x41, 0xC3, 0xA9] (3 : Int).toNat r : Int) →
            (r : Int) = utflite_prev_grapheme [0x41, 0xC3, 0xA9] 3) :=
  prev_grapheme_spec [0x41, 0xC3, 0xA9] 3 (by decide)

/-- Counterexample to C9 as stated: at offset 260 of `c9_text` the forward
rescan finds no grapheme boundary strictly before the offset (the first
`next_grapheme` call from the anchor already reaches 260), so the claim
prescribes a result of 0 — but the code returns the rescan anchor 2, which
is also not a grapheme cluster boundary of this buffer. -/
theorem prev_grapheme_anchor_counterexample :
    utflite_prev_grapheme c9_text 260 = 2 ∧
      utflite_next_grapheme c9_text 260 2 = 260 ∧ (2 : Int) ≠ 0 :=
  ⟨by decide, by decide, by decide⟩

/-!
Claim C6: truncation. The truncate loop is characterised along the
`next_char` walk from offset 0.
-/

/-- Decoding an adequate prefix of a buffer gives the same result as
decoding the buffer: decode never looks at bytes past the ones it consumes,
except to detect truncation, and all truncations agree on the error result. -/
theorem decode_take (l : List Nat) (k : Nat) (hk : (utflite_decode l).2 ≤ k) :
    utflite_decode (l.take k) = utflite_decode l := by
  cases l with
  | nil => simp
  | cons first rest =>
    have hkpos : 1 ≤ k := le_trans (decode_consumed_bounds (first :: rest)).1 hk
    obtain ⟨k', rfl⟩ : ∃ k', k = k' + 1 := ⟨k - 1, by omega⟩
    rw [List.take_succ_cons]
    by_cases hf : first < 0x80
    · simp [utflite_decode, hf]
    · cases hli : leadInfo first with
      | none => simp [utflite_decode, hf, hli]
      | some p =>
        obtain ⟨sl, cp0⟩ := p
        have hsl : sl = 2 ∨ sl = 3 ∨ sl = 4 := by
          unfold leadInfo at hli
          split_ifs at hli <;> simp_all
        by_cases hlen : rest.length + 1 < sl
        · -- truncated in the full buffer: consumed 1, and the prefix is
          -- truncated as well
          have hlen' : (rest.take k').length + 1 < sl := by
            simp only [List.length_take]
            omega
          simp only [List.length_take] at hlen'
          simp [utflite_decode, hf, hli, hlen, hlen']
        · -- full buffer has enough bytes
          cases hrc : readCont (rest.take (sl - 1)) cp0 with
          | none =>
            -- bad continuation byte: consumed 1; the prefix either is
            -- truncated or hits the same bad byte
            by_cases hlen' : (rest.take k').length + 1 < sl
            · have hlen'' := hlen'
              simp only [List.length_take] at hlen''
              simp [utflite_decode, hf, hli, hlen, hlen', hrc]
              intro h
              exfalso
              omega
            · have htt : (rest.take k').take (sl - 1) = rest.take (sl - 1) := by
                rw [List.take_take]
                congr 1
                simp only [List.length_take] at hlen'
                omega
              have hfull := decode_cons_lead first rest sl cp0 hf hli hlen
              have hpre := decode_cons_lead first (rest.take k') sl cp0 hf hli hlen'
              rw [htt, hrc] at hpre
              rw [hrc] at hfull
              rw [hpre, hfull]
          | some cp =>
            -- structurally fine: consumed sl ≤ k
            have hfull := decode_cons_lead first rest sl cp0 hf hli hlen
            rw [hrc] at hfull
            have hslk : sl ≤ k' + 1 := by
              have h2 : (utflite_decode (first :: rest)).2 = sl := by
                rw [hfull]
                show (if (sl = 2 ∧ cp < 0x80) ∨ (sl = 3 ∧ cp < 0x800) ∨
                    (sl = 4 ∧ cp < 0x10000) then (UTFLITE_REPLACEMENT_CHAR, sl)
                  else if 0xD800 ≤ cp ∧ cp ≤ 0xDFFF then (UTFLITE_REPLACEMENT_CHAR, sl)
                  else if 0x10FFFF < cp then (UTFLITE_REPLACEMENT_CHAR, sl)
                  else (cp, sl)).2 = sl
                split_ifs <;> rfl
              omega
            have hlen' : ¬(rest.take k').length + 1 < sl := by
              simp only [List.length_take]
              omega
            have htt : (rest.take k').take (sl - 1) = rest.take (sl - 1) := by
              rw [List.take_take]
              congr 1
              omega
            have hpre := decode_cons_lead first (rest.take k') sl cp0 hf hli hlen'
            rw [htt, hrc] at hpre
            rw [hpre, hfull]

theorem next_char_le (text : List Nat) (length o : Nat) :
    utflite_next_char text length o ≤ length := by
  unfold utflite_next_char
  split_ifs <;> omega

theorem next_char_progress (text : List Nat) (length o : Nat) (h : o < length) :
    o < utflite_next_char text length o := by
  have hc := (decode_consumed_bounds (region text length o)).1
  unfold utflite_next_char
  split_ifs <;> omega

theorem walk_le (text : List Nat) (length : Nat) :
    ∀ n, walkOffset text length n ≤ length := by
  intro n
  cases n with
  | zero => exact Nat.zero_le _
  | succ m => exact next_char_le text length _

theorem walk_mono_succ (text : List Nat) (length : Nat) (n : Nat) :
    walkOffset text length n ≤ walkOffset text length (n + 1) := by
  show walkOffset text length n ≤ utflite_next_char text length (walkOffset text length n)
  rcases Nat.lt_or_ge (walkOffset text length n) length with h | h
  · exact le_of_lt (next_char_progress text length _ h)
  · have h1 := walk_le text length n
    unfold utflite_next_char
    rw [if_pos (by omega)]
    omega

theorem walk_mono (text : List Nat) (length : Nat) :
    ∀ i j, i ≤ j → walkOffset text length i ≤ walkOffset text length j := by
  intro i j hij
  induction j with
  | zero => simp_all
  | succ m ih =>
    rcases Nat.lt_or_ge i (m + 1) with h | h
    · exact le_trans (ih (by omega)) (walk_mono_succ text length m)
    · have : i = m + 1 := by omega
      subst this
      exact le_rfl

theorem walk_stable (text : List Nat) (length : Nat) (n : Nat)
    (h : walkOffset text length n = length) :
    ∀ j, walkOffset text length (n + j) = length := by
  intro j
  induction j with
  | zero => exact h
  | succ m ih =>
    show utflite_next_char text length (walkOffset text length (n + m)) = length
    rw [ih]
    unfold utflite_next_char
    rw [if_pos le_rfl]

theorem walk_reaches (text : List Nat) (length : Nat) :
    ∀ k n, length ≤ walkOffset text length n + k →
      walkOffset text length (n + k) = length := by
  intro k
  induction k with
  | zero =>
    intro n h
    rw [Nat.add_zero]
    have := walk_le text length n
    omega
  | succ m ih =>
    intro n h
    rcases Nat.lt_or_ge (walkOffset text length n) length with hlt | hge
    · have hp := next_char_progress text length _ hlt
      have : length ≤ walkOffset text length (n + 1) + m := by
        have : walkOffset text length (n + 1) =
            utflite_next_char text length (walkOffset text length n) := rfl
        omega
      have := ih (n + 1) this
      rw [show n + (m + 1) = n + 1 + m by omega]
      exact this
    · have h1 := walk_le text length n
      have h2 : walkOffset text length n = length := by omega
      exact walk_stable text length n h2 (m + 1)

theorem walk_ge (text : List Nat) (length : Nat) :
    ∀ n, walkOffset text length n = length ∨ n ≤ walkOffset text length n := by
  intro n
  induction n with
  | zero => right; exact le_rfl
  | succ m ih =>
    rcases ih with h | h
    · left
      have := walk_stable text length m h 1
      simpa using this
    · rcases Nat.lt_or_ge (walkOffset text length m) length with hlt | hge
      · right
        have := next_char_progress text length _ hlt
        show m + 1 ≤ utflite_next_char text length (walkOffset text length m)
        omega
      · left
        have h1 := walk_le text length m
        have h2 : walkOffset text length m = length := by omega
        have := walk_stable text length m h2 1
        simpa using this

theorem char_width_at_end (text : List Nat) (length o : Nat) (h : length ≤ o) :
    utflite_char_width text length o = 0 := by
  unfold utflite_char_width
  rw [if_pos h]

theorem width_mono (text : List Nat) (length : Nat) :
    ∀ i j, i ≤ j → walkWidth text length i ≤ walkWidth text length j := by
  intro i j hij
  induction j with
  | zero => simp_all
  | succ m ih =>
    rcases Nat.lt_or_ge i (m + 1) with h | h
    · refine le_trans (ih (by omega)) ?_
      show walkWidth text length m ≤ walkWidth text length m + _
      split_ifs with hw
      · omega
      · omega
    · have : i = m + 1 := by omega
      subst this
      exact le_rfl

theorem width_stable (text : List Nat) (length : Nat) (n : Nat)
    (h : walkOffset text length n = length) :
    ∀ j, walkWidth text length (n + j) = walkWidth text length n := by
  intro j
  induction j with
  | zero => rfl
  | succ m ih =>
    show walkWidth text length (n + m) +
        (if 0 < utflite_char_width text length (walkOffset text length (n + m)) then
          utflite_char_width text length (walkOffset text length (n + m)) else 0) =
      walkWidth text length n
    rw [walk_stable text length n h m, char_width_at_end text length length le_rfl, ih]
    simp

/-- The width-accumulation loop, started at a walk offset, adds exactly the
walk widths accumulated until the walk reaches the end of the buffer. -/
theorem swGo_eq (text : List Nat) (length : Nat) :
    ∀ fuel n acc, length - walkOffset text length n < fuel →
      stringWidthGo text length fuel acc (walkOffset text length n) =
        acc + (walkWidth text length (n + (length - walkOffset text length n)) -
          walkWidth text length n) := by
  have hsucc : ∀ m acc o, stringWidthGo text length (m + 1) acc o =
      if o < length then
        stringWidthGo text length m
          (if 0 < utflite_char_width text length o then acc + utflite_char_width text length o
            else acc)
          (utflite_next_char text length o)
      else acc := fun _ _ _ => rfl
  intro fuel
  induction fuel with
  | zero => intro n acc h; omega
  | succ m ih =>
    intro n acc h
    rw [hsucc]
    by_cases hlt : walkOffset text length n < length
    · rw [if_pos hlt]
      have hstep : utflite_next_char text length (walkOffset text length n) =
          walkOffset text length (n + 1) := rfl
      have hprog : walkOffset text length n < walkOffset text length (n + 1) :=
        next_char_progress text length _ hlt
      have hle1 := walk_le text length (n + 1)
      have hle0 := walk_le text length n
      have hfuel' : length - walkOffset text length (n + 1) < m := by omega
      rw [hstep, ih (n + 1) _ hfuel']
      have hidx1 : walkOffset text length
          ((n + 1) + (length - walkOffset text length (n + 1))) = length :=
        walk_reaches text length (length - walkOffset text length (n + 1)) (n + 1) (by omega)
      have hidx2 : walkOffset text length
          (n + (length - walkOffset text length n)) = length :=
        walk_reaches text length (length - walkOffset text length n) n (by omega)
      have hSeq : walkWidth text length ((n + 1) + (length - walkOffset text length (n + 1))) =
          walkWidth text length (n + (length - walkOffset text length n)) := by
        have hile : (n + 1) + (length - walkOffset text length (n + 1)) ≤
            n + (length - walkOffset text length n) := by omega
        have hstab := width_stable text length
          ((n + 1) + (length - walkOffset text length (n + 1))) hidx1
          ((n + (length - walkOffset text length n)) -
            ((n + 1) + (length - walkOffset text length (n + 1))))
        rw [← Nat.add_sub_cancel' hile]
        exact hstab.symm
      have hS1 : walkWidth text length (n + 1) = walkWidth text length n +
          (if 0 < utflite_char_width text length (walkOffset text length n) then
            utflite_char_width text length (walkOffset text length n) else 0) := rfl
      by_cases hw : 0 < utflite_char_width text length (walkOffset text length n)
      · rw [if_pos hw] at hS1 ⊢
        rw [hSeq]
        omega
      · rw [if_neg hw] at hS1 ⊢
        rw [hSeq]
        omega
    · rw [if_neg hlt]
      have h1 := walk_le text length n
      have h3 : length - walkOffset text length n = 0 := by omega
      rw [h3, Nat.add_zero]
      omega

/-- The string width of a buffer is the total walk width. -/
theorem sw_eq (text : List Nat) (length : Nat) :
    utflite_string_width text length = walkWidth text length length := by
  have h0 : walkOffset text length 0 = 0 := rfl
  have hmain := swGo_eq text length (length + 1) 0 0 (by rw [h0]; omega)
  rw [h0] at hmain
  simp only [Nat.zero_add, Nat.sub_zero] at hmain
  unfold utflite_string_width
  rw [hmain]
  have h1 : walkWidth text length 0 = 0 := rfl
  omega

theorem region_take (text : List Nat) (length r o : Nat) (h : r ≤ length) :
    region text r o = (region text length o).take (r - o) := by
  unfold region
  rw [List.take_take]
  congr 1
  omega

theorem decode_le_len (l : List Nat) (h : l ≠ []) :
    (utflite_decode l).2 ≤ l.length := by
  cases l with
  | nil => exact absurd rfl h
  | cons first rest =>
    by_cases hf : first < 0x80
    · simp [utflite_decode, hf]
    · cases hli : leadInfo first with
      | none => simp [utflite_decode, hf, hli]
      | some p =>
        obtain ⟨sl, cp0⟩ := p
        by_cases hlen : rest.length + 1 < sl
        · simp [utflite_decode, hf, hli, hlen]
        · cases hrc : readCont (rest.take (sl - 1)) cp0 with
          | none => simp [utflite_decode, hf, hli, hlen, hrc]
          | some cp =>
            have := decode_cons_lead first rest sl cp0 hf hli hlen
            rw [hrc] at this
            rw [this]
            show (if _ then (UTFLITE_REPLACEMENT_CHAR, sl) else if _ then _ else if _ then _
              else (cp, sl)).2 ≤ rest.length + 1
            split_ifs <;> simp <;> omega

theorem consumed_le (text : List Nat) (length o : Nat) (h : o < length) :
    o + (utflite_decode (region text length o)).2 ≤ length := by
  by_cases hreg : region text length o = []
  · rw [hreg]
    show o + 1 ≤ length
    omega
  · have h1 := decode_le_len _ hreg
    have h2 : (region text length o).length ≤ length - o := by
      unfold region
      simp only [List.length_take]
      omega
    omega

theorem next_char_eq (text : List Nat) (length o : Nat) (h : o < length) :
    utflite_next_char text length o = o + (utflite_decode (region text length o)).2 := by
  unfold utflite_next_char
  rw [if_neg (by omega), if_neg (by have := consumed_le text length o h; omega)]

/-- Walking a strict prefix of the buffer visits the same offsets with the
same character widths, as long as the walk stays inside the prefix. -/
theorem walk_agree (text : List Nat) (length r N : Nat) (hrL : r < length)
    (hN : walkOffset text length N = r) :
    ∀ n, n ≤ N → walkOffset text r n = walkOffset text length n ∧
      walkWidth text r n = walkWidth text length n := by
  intro n
  induction n with
  | zero => intro _; exact ⟨rfl, rfl⟩
  | succ m ih =>
    intro hm
    obtain ⟨ho, hw⟩ := ih (by omega)
    have hm1le : walkOffset text length (m + 1) ≤ r := by
      have h1 := walk_mono text length (m + 1) N hm
      rw [hN] at h1
      exact h1
    have hmlt : walkOffset text length m < r := by
      by_cases hend : walkOffset text length m < length
      · have := next_char_progress text length _ hend
        have h2 : walkOffset text length m < walkOffset text length (m + 1) := this
        omega
      · have hle := walk_le text length m
        have hLm : walkOffset text length m = length := by omega
        have h3 := walk_stable text length m hLm (N - m)
        rw [Nat.add_sub_cancel' (by omega : m ≤ N), hN] at h3
        omega
    have hnc : walkOffset text length (m + 1) = walkOffset text length m +
        (utflite_decode (region text length (walkOffset text length m))).2 :=
      next_char_eq text length _ (by omega)
    have hcle : (utflite_decode (region text length (walkOffset text length m))).2 ≤
        r - walkOffset text length m := by omega
    have hdec : utflite_decode (region text r (walkOffset text length m)) =
        utflite_decode (region text length (walkOffset text length m)) := by
      rw [region_take text length r _ (le_of_lt hrL)]
      exact decode_take _ _ hcle
    constructor
    · show utflite_next_char text r (walkOffset text r m) = walkOffset text length (m + 1)
      rw [ho, next_char_eq text r _ hmlt, hdec]
      omega
    · show walkWidth text r m +
          (if 0 < utflite_char_width text r (walkOffset text r m) then
            utflite_char_width text r (walkOffset text r m) else 0) =
        walkWidth text length m +
          (if 0 < utflite_char_width text length (walkOffset text length m) then
            utflite_char_width text length (walkOffset text length m) else 0)
      have hcw : utflite_char_width text r (walkOffset text length m) =
          utflite_char_width text length (walkOffset text length m) := by
        unfold utflite_char_width
        rw [if_neg (by omega), if_neg (by omega), hdec]
      rw [ho, hw, hcw]

/-- The display width of the prefix ending at walk position `N` equals the
walk width accumulated in `N` steps. -/
theorem sw_r_eq (text : List Nat) (length r N : Nat)
    (hN : walkOffset text length N = r) :
    utflite_string_width text r = walkWidth text length N := by
  rcases Nat.lt_or_ge r length with hrL | hge
  · have hNle : N ≤ r := by
      rcases walk_ge text length N with h | h
      · rw [hN] at h; omega
      · omega
    have hagree := walk_agree text length r N hrL hN N le_rfl
    rw [sw_eq]
    have hwrN : walkOffset text r N = r := by rw [hagree.1, hN]
    calc walkWidth text r r
        = walkWidth text r (N + (r - N)) := by rw [Nat.add_sub_cancel' hNle]
      _ = walkWidth text r N := width_stable text r N hwrN (r - N)
      _ = walkWidth text length N := hagree.2
  · have hle := walk_le text length N
    have hrL : r = length := by omega
    subst hrL
    rw [sw_eq]
    rcases Nat.lt_or_ge N r with h | h
    · calc walkWidth text r r
          = walkWidth text r (N + (r - N)) := by rw [Nat.add_sub_cancel' (le_of_lt h)]
        _ = walkWidth text r N := width_stable text r N hN (r - N)
    · have hwr : walkOffset text r r = r := by
        have := walk_reaches text r r 0 (by simp)
        simpa using this
      calc walkWidth text r r
          = walkWidth text r (r + (N - r)) := (width_stable text r r hwr (N - r)).symm
        _ = walkWidth text r N := by rw [Nat.add_sub_cancel' h]

theorem walk_at_length (text : List Nat) (length : Nat) :
    walkOffset text length length = length := by
  have := walk_reaches text length length 0 (by simp)
  simpa using this

theorem width_le_total (text : List Nat) (length : Nat) :
    ∀ n, walkWidth text length n ≤ walkWidth text length length := by
  intro n
  rcases le_or_lt n length with h | h
  · exact width_mono text length n length h
  · have hw := walk_at_length text length
    have := width_stable text length length hw (n - length)
    rw [Nat.add_sub_cancel' (le_of_lt h)] at this
    omega

theorem width_stab_eq (text : List Nat) (length N : Nat)
    (h : walkOffset text length N = length) :
    walkWidth text length length = walkWidth text length N := by
  rcases le_or_lt N length with hle | hlt
  · have := width_stable text length N h (length - N)
    rw [Nat.add_sub_cancel' hle] at this
    exact this
  · have hw := walk_at_length text length
    have := width_stable text length length hw (N - length)
    rw [Nat.add_sub_cancel' (le_of_lt hlt)] at this
    omega

/-- Loop invariant of `truncate`: started at walk position `N` with the walk
width accumulated so far (still within budget), the loop returns a walk
offset whose prefix width is within budget, such that the next character
would exceed the budget when the result is interior, and returns `length`
whenever the whole string fits. -/
theorem truncateGo_inv (text : List Nat) (length : Nat) (maxc : Int) :
    ∀ fuel N, length - walkOffset text length N < fuel →
      walkWidth text length N ≤ maxc →
      ∀ r, truncateGo text length maxc fuel (walkWidth text length N)
          (walkOffset text length N) = r →
        (∃ M, walkOffset text length M = r) ∧
        utflite_string_width text r ≤ maxc ∧
        (r < length → maxc < utflite_string_width text (utflite_next_char text length r)) ∧
        (utflite_string_width text length ≤ maxc → r = length) := by
  have hsucc : ∀ m w o, truncateGo text length maxc (m + 1) w o =
      if o < length then
        if 0 < utflite_char_width text length o then
          if maxc < w + utflite_char_width text length o then o
          else truncateGo text length maxc m (w + utflite_char_width text length o)
            (utflite_next_char text length o)
        else truncateGo text length maxc m w (utflite_next_char text length o)
      else length := fun _ _ _ => rfl
  intro fuel
  induction fuel with
  | zero => intro N h _ r _; omega
  | succ m ih =>
    intro N hfuel hwle r hr
    rw [hsucc] at hr
    by_cases hlt : walkOffset text length N < length
    · rw [if_pos hlt] at hr
      have hnext : utflite_next_char text length (walkOffset text length N) =
          walkOffset text length (N + 1) := rfl
      have hprog : walkOffset text length N < walkOffset text length (N + 1) :=
        next_char_progress text length _ hlt
      have hlen1 := walk_le text length (N + 1)
      by_cases hcw : 0 < utflite_char_width text length (walkOffset text length N)
      · rw [if_pos hcw] at hr
        have hS1 : walkWidth text length (N + 1) = walkWidth text length N +
            utflite_char_width text length (walkOffset text length N) := by
          show walkWidth text length N + (if _ then _ else _) = _
          rw [if_pos hcw]
        by_cases hex : maxc < walkWidth text length N +
            utflite_char_width text length (walkOffset text length N)
        · rw [if_pos hex] at hr
          subst hr
          refine ⟨⟨N, rfl⟩, ?_, ?_, ?_⟩
          · rw [sw_r_eq text length _ N rfl]
            exact hwle
          · intro _
            rw [hnext, sw_r_eq text length _ (N + 1) rfl, hS1]
            exact hex
          · intro hfits
            exfalso
            rw [sw_eq] at hfits
            have h1 := width_le_total text length (N + 1)
            omega
        · rw [if_neg hex, hnext,
            show walkWidth text length N + utflite_char_width text length
              (walkOffset text length N) = walkWidth text length (N + 1) from hS1.symm] at hr
          exact ih (N + 1) (by omega) (by omega) r hr
      · rw [if_neg hcw] at hr
        have hS1 : walkWidth text length (N + 1) = walkWidth text length N := by
          show walkWidth text length N + (if _ then _ else _) = _
          rw [if_neg hcw]
          simp
        rw [hnext, show walkWidth text length N = walkWidth text length (N + 1)
          from hS1.symm] at hr
        exact ih (N + 1) (by omega) (by omega) r hr
    · rw [if_neg hlt] at hr
      subst hr
      have hle := walk_le text length N
      have hNL : walkOffset text length N = length := by omega
      refine ⟨⟨N, hNL⟩, ?_, ?_, fun _ => rfl⟩
      · rw [sw_eq, width_stab_eq text length N hNL]
        exact hwle
      · intro h
        omega

/-- C6: for every text, length and non-negative column budget, the offset
returned by `truncate` is reachable from 0 by `next_char` steps (a character
boundary); the display width of the prefix before it is at most `max_cols`;
when the result is interior, adding the width of the character at the result
would exceed `max_cols`; and when the whole string fits, `truncate` returns
`length`. -/
theorem truncate_spec :
    ∀ text length max_cols, (0 : Int) ≤ max_cols →
      (∃ M, walkOffset text length M = utflite_truncate text length max_cols) ∧
      utflite_string_width text (utflite_truncate text length max_cols) ≤ max_cols ∧
      (utflite_truncate text length max_cols < length →
        max_cols < utflite_string_width text
          (utflite_next_char text length (utflite_truncate text length max_cols))) ∧
      (utflite_string_width text length ≤ max_cols →
        utflite_truncate text length max_cols = length) := by
  intro text length maxc hmc
  have h0o : walkOffset text length 0 = 0 := rfl
  have h0w : walkWidth text length 0 = 0 := rfl
  refine truncateGo_inv text length maxc (length + 1) 0 (by rw [h0o]; omega)
    (by rw [h0w]; exact hmc) (utflite_truncate text length maxc) ?_
  show truncateGo text length maxc (length + 1) (walkWidth text length 0)
      (walkOffset text length 0) = _
  rw [h0w, h0o]
  rfl

/-- Witness for C6 on the spec's CJK example (two double-width glyphs and
two ASCII letters, truncated to 5 columns). -/
theorem truncate_spec_witness :
    (∃ M, walkOffset [0xE4, 0xB8, 0xAD, 0xE4, 0xB8, 0xAD, 0x43, 0x44] 8 M =
      utflite_truncate [0xE4, 0xB8, 0xAD, 0xE4, 0xB8, 0xAD, 0x43, 0x44] 8 5) ∧
    utflite_string_width [0xE4, 0xB8, 0xAD, 0xE4, 0xB8, 0xAD, 0x43, 0x44]
      (utflite_truncate [0xE4, 0xB8, 0xAD, 0xE4, 0xB8, 0xAD, 0x43, 0x44] 8 5) ≤ 5 ∧
    (utflite_truncate [0xE4, 0xB8, 0xAD, 0xE4, 0xB8, 0xAD, 0x43, 0x44] 8 5 < 8 →
      5 < utflite_string_width [0xE4, 0xB8, 0xAD, 0xE4, 0xB8, 0xAD, 0x43, 0x44]
        (utflite_next_char [0xE4, 0xB8, 0xAD, 0xE4, 0xB8, 0xAD, 0x43, 0x44] 8
          (utflite_truncate [0xE4, 0xB8, 0xAD, 0xE4, 0xB8, 0xAD, 0x43, 0x44] 8 5))) ∧
    (utflite_string_width [0xE4, 0xB8, 0xAD, 0xE4, 0xB8, 0xAD, 0x43, 0x44] 8 ≤ 5 →
      utflite_truncate [0xE4, 0xB8, 0xAD, 0xE4, 0xB8, 0xAD, 0x43, 0x44] 8 5 = 8) :=
  truncate_spec [0xE4, 0xB8, 0xAD, 0xE4, 0xB8, 0xAD, 0x43, 0x44] 8 5 (by decide)

end Utflite
